import Mathlib

/-!
Verification of the PriceIsRight wheel-game solver.

The repository solves a three-contestant spin-and-stop game (wheel faces
1..20, bust above 20, highest final total wins, ties replayed) by exact
backward-induction dynamic programming over rational win probabilities.

This file embeds the solver shallowly:

* `third_player_probability`, `third_player_optimal_policy`,
  `third_player_policy_probability`, `second_player_probability`, ...,
  `first_player_policy_probability` translate the corresponding
  functions/arrays of `dynamic_programming.cpp`.  The C++ `Fraction`
  value (an exact rational kept in lowest terms with positive
  denominator) is modelled by `ℚ`; the separate `Fraction64` model
  below captures its fixed-width `long long` representation.
* the `..._sim` collapse functions translate the policy-collapse loops
  of the second solver variant in the repository (the file that also
  contains the Monte-Carlo simulator), whose spin-0 policy value is used
  as a general skip weight.
* `Assumption` translates `assumptions.cpp`.
* the `spinoff_...` functions are modelled from the spec: the
  two-participant replay sub-game, solved with the same stage-solver
  machinery (the repository itself never computes it).

An auxiliary integer-scaled model (`..._N` definitions) mirrors each
table with all probabilities multiplied by a fixed per-stage
denominator; correspondence lemmas prove it equal to the `ℚ` model, and
all concrete table values are evaluated on the integer model.
-/

set_option maxRecDepth 1000000
set_option maxHeartbeats 16000000

/-- Left-to-right sum `f 1 + f 2 + ... + f n`, the shape of the
`for (i = 1; i <= n; i++) acc += f(i)` accumulation loops of the C++. -/
def sumUpTo {α : Type} [Add α] [Zero α] (f : Nat → α) : Nat → α
  | 0 => 0
  | n + 1 => sumUpTo f n + f (n + 1)
/-- An outcome distribution: win probabilities of players 1, 2, 3
(one C++ table cell, last array index `[0]`, `[1]`, `[2]`). -/
abbrev Tri := ℚ × ℚ × ℚ

/-- Sum of the three components of an outcome distribution. -/
def Tri.total (t : Tri) : ℚ := t.1 + t.2.1 + t.2.2

/-! ## Stage 3 (last-acting player), from `dynamic_programming.cpp` -/

/-- Player 3's win probability when stopping at total `t` against prior
totals `p1`, `p2` (the `spinAgain == 0` branch of the stage-3 loop:
win outright / three-way tie 1/3 / two-way tie 1/2 / lose). -/
def third_stop_w (p1 p2 t : Nat) : ℚ :=
  if t > p1 ∧ t > p2 then 1
  else if t = p1 ∧ t = p2 then 1/3
  else if t = max p1 p2 then 1/2
  else 0

/-- Player 3's win probability when spinning again from `spin`
(the `spinAgain == 1` branch: integrate uniformly over the 20 faces;
a bust wins 1/3 only when both priors busted, matching
`Fraction((p1 + p2 == 0 ? 1 : 0), 3)`; otherwise the same outright /
tie / lose case split as the stop branch, at the new total). -/
def third_spin_w (p1 p2 spin : Nat) : ℚ :=
  sumUpTo (fun ns =>
    if ns + spin > 20 then 1/20 * (if p1 + p2 = 0 then (1:ℚ)/3 else 0)
    else 1/20 * third_stop_w p1 p2 (ns + spin)) 20

/-- The stage-3 raw table `third_player_probability[p1][p2][spin][spinAgain]`:
player 3's win probability is computed first, then players 1 and 2 split
the remainder (equally when `p1 == p2`, else winner-takes-it). -/
def third_player_probability (p1 p2 spin : Nat) (spinAgain : Bool) : Tri :=
  let w : ℚ := if spinAgain then third_spin_w p1 p2 spin else third_stop_w p1 p2 spin
  if p1 = p2 then (1/2 * (1 - w), 1/2 * (1 - w), w)
  else if p1 > p2 then (1 - w, 0, w)
  else (0, 1 - w, w)

/-- `third_player_optimal_policy`: at spin 0 always take the first spin
(returns 0, i.e. "don't skip"); else spin again iff player 3's own win
probability (`[2]`) when spinning strictly exceeds it when stopping. -/
def third_player_optimal_policy (p1 p2 spin1 : Nat) : ℚ :=
  if spin1 = 0 then 0
  else if (third_player_probability p1 p2 spin1 true).2.2 >
      (third_player_probability p1 p2 spin1 false).2.2 then 1 else 0

/-- The stage-3 policy collapse `third_player_policy_probability[p1][p2]`
of `dynamic_programming.cpp`: if the policy value at spin 0 equals 1 the
entry is the no-play cell `[0][0]`; otherwise integrate the policy-chosen
branch uniformly over the first spin 1..20. -/
def third_player_policy_probability (pol : Nat → Nat → Nat → ℚ) (p1 p2 : Nat) : Tri :=
  if pol p1 p2 0 = 1 then third_player_probability p1 p2 0 false
  else
    (sumUpTo (fun s => 1/20 * (pol p1 p2 s * (third_player_probability p1 p2 s true).1
        + (1 - pol p1 p2 s) * (third_player_probability p1 p2 s false).1)) 20,
     sumUpTo (fun s => 1/20 * (pol p1 p2 s * (third_player_probability p1 p2 s true).2.1
        + (1 - pol p1 p2 s) * (third_player_probability p1 p2 s false).2.1)) 20,
     sumUpTo (fun s => 1/20 * (pol p1 p2 s * (third_player_probability p1 p2 s true).2.2
        + (1 - pol p1 p2 s) * (third_player_probability p1 p2 s false).2.2)) 20)

/-- Stage-3 collapsed table under the optimal third-player policy (the
array contents after the first two loops of `initialize_dp_tables` when
run as in `main`). -/
def tppOpt : Nat → Nat → Tri :=
  third_player_policy_probability third_player_optimal_policy

/-! ## Stage 2, from `dynamic_programming.cpp` -/

/-- The stage-2 raw table `second_player_probability[p1][spin1][spinAgain]`,
consuming a stage-3 collapsed table `tpp`: stopping copies
`tpp[p1][spin1]`; spinning again integrates `tpp[p1][new total]` over the
20 faces with a bust coerced to total 0. -/
def second_player_probability (tpp : Nat → Nat → Tri) (p1 spin1 : Nat)
    (spinAgain : Bool) : Tri :=
  if spinAgain then
    (sumUpTo (fun ns => 1/20 * (tpp p1 (if spin1 + ns > 20 then 0 else spin1 + ns)).1) 20,
     sumUpTo (fun ns => 1/20 * (tpp p1 (if spin1 + ns > 20 then 0 else spin1 + ns)).2.1) 20,
     sumUpTo (fun ns => 1/20 * (tpp p1 (if spin1 + ns > 20 then 0 else spin1 + ns)).2.2) 20)
  else tpp p1 spin1

/-- Stage-2 raw table as filled in the optimal run of `main`. -/
def sprobOpt : Nat → Nat → Bool → Tri := second_player_probability tppOpt

/-- `second_player_optimal_policy`: at spin 0 always take the first spin;
else spin again iff player 2's own win probability (`[1]`) when spinning
strictly exceeds it when stopping. -/
def second_player_optimal_policy (p1 spin1 : Nat) : ℚ :=
  if spin1 = 0 then 0
  else if (sprobOpt p1 spin1 true).2.1 > (sprobOpt p1 spin1 false).2.1 then 1 else 0

/-- The stage-2 policy collapse `second_player_policy_probability[p1]` of
`dynamic_programming.cpp` (same binary shape as stage 3's). -/
def second_player_policy_probability (pol : Nat → Nat → ℚ)
    (sprob : Nat → Nat → Bool → Tri) (p1 : Nat) : Tri :=
  if pol p1 0 = 1 then sprob p1 0 false
  else
    (sumUpTo (fun s => 1/20 * (pol p1 s * (sprob p1 s true).1
        + (1 - pol p1 s) * (sprob p1 s false).1)) 20,
     sumUpTo (fun s => 1/20 * (pol p1 s * (sprob p1 s true).2.1
        + (1 - pol p1 s) * (sprob p1 s false).2.1)) 20,
     sumUpTo (fun s => 1/20 * (pol p1 s * (sprob p1 s true).2.2
        + (1 - pol p1 s) * (sprob p1 s false).2.2)) 20)

/-- Stage-2 collapsed table in the optimal run of `main`. -/
def sppOpt : Nat → Tri :=
  second_player_policy_probability second_player_optimal_policy sprobOpt

/-! ## Stage 1, from `dynamic_programming.cpp` -/

/-- The stage-1 raw table `first_player_probability[spin1][spinAgain]`,
consuming a stage-2 collapsed table `spp`. -/
def first_player_probability (spp : Nat → Tri) (spin1 : Nat) (spinAgain : Bool) : Tri :=
  if spinAgain then
    (sumUpTo (fun ns => 1/20 * (spp (if spin1 + ns > 20 then 0 else spin1 + ns)).1) 20,
     sumUpTo (fun ns => 1/20 * (spp (if spin1 + ns > 20 then 0 else spin1 + ns)).2.1) 20,
     sumUpTo (fun ns => 1/20 * (spp (if spin1 + ns > 20 then 0 else spin1 + ns)).2.2) 20)
  else spp spin1

/-- Stage-1 raw table in the optimal run of `main`. -/
def fprobOpt : Nat → Bool → Tri := first_player_probability sppOpt

/-- `first_player_optimal_policy` exactly as written in the C++: at spin 0
always take the first spin; else compare component `[1]` of the stage-1
table — i.e. the code compares PLAYER 2's win probabilities, not player
1's own component `[0]`. -/
def first_player_optimal_policy (spin1 : Nat) : ℚ :=
  if spin1 = 0 then 0
  else if (fprobOpt spin1 true).2.1 > (fprobOpt spin1 false).2.1 then 1 else 0

/-- The stage-1 policy collapse `first_player_policy_probability` of
`dynamic_programming.cpp`: the overall outcome distribution. -/
def first_player_policy_probability (pol : Nat → ℚ) (fprob : Nat → Bool → Tri) : Tri :=
  if pol 0 = 1 then fprob 0 false
  else
    (sumUpTo (fun s => 1/20 * (pol s * (fprob s true).1
        + (1 - pol s) * (fprob s false).1)) 20,
     sumUpTo (fun s => 1/20 * (pol s * (fprob s true).2.1
        + (1 - pol s) * (fprob s false).2.1)) 20,
     sumUpTo (fun s => 1/20 * (pol s * (fprob s true).2.2
        + (1 - pol s) * (fprob s false).2.2)) 20)

/-- The final outcome distribution printed by `main` (wheel size 20,
default rules, all three players following their derived policies). -/
def finalOpt : Tri :=
  first_player_policy_probability first_player_optimal_policy fprobOpt

/-! ## The weighted policy collapses of the simulator variant

The second solver file in the repository (the one that also contains
`simulate_game`) fills the same tables but its policy-collapse loops use
the spin-0 policy value `prob_of_first_spin` as a general weight:
`entry = prob_of_first_spin * table[0][0] + (1 - prob_of_first_spin) * integral`.
The collapse loops read the raw table of their stage; we take that table
as the function argument `prob`. -/

/-- The uniform first-spin integral of a stage-3 collapse (the inner
`for (spin = 1; spin <= 20; ...)` accumulation, common to both solver
variants). -/
def spinIntegral3 (pol : Nat → Nat → Nat → ℚ) (prob : Nat → Nat → Nat → Bool → Tri)
    (p1 p2 : Nat) : Tri :=
  (sumUpTo (fun s => 1/20 * (pol p1 p2 s * (prob p1 p2 s true).1
      + (1 - pol p1 p2 s) * (prob p1 p2 s false).1)) 20,
   sumUpTo (fun s => 1/20 * (pol p1 p2 s * (prob p1 p2 s true).2.1
      + (1 - pol p1 p2 s) * (prob p1 p2 s false).2.1)) 20,
   sumUpTo (fun s => 1/20 * (pol p1 p2 s * (prob p1 p2 s true).2.2
      + (1 - pol p1 p2 s) * (prob p1 p2 s false).2.2)) 20)

/-- Stage-3 policy collapse of the simulator variant (weighted skip). -/
def third_player_policy_probability_sim (pol : Nat → Nat → Nat → ℚ)
    (prob : Nat → Nat → Nat → Bool → Tri) (p1 p2 : Nat) : Tri :=
  let w := pol p1 p2 0
  (w * (prob p1 p2 0 false).1 + (1 - w) * (spinIntegral3 pol prob p1 p2).1,
   w * (prob p1 p2 0 false).2.1 + (1 - w) * (spinIntegral3 pol prob p1 p2).2.1,
   w * (prob p1 p2 0 false).2.2 + (1 - w) * (spinIntegral3 pol prob p1 p2).2.2)

/-- The uniform first-spin integral of a stage-2 collapse. -/
def spinIntegral2 (pol : Nat → Nat → ℚ) (prob : Nat → Nat → Bool → Tri)
    (p1 : Nat) : Tri :=
  (sumUpTo (fun s => 1/20 * (pol p1 s * (prob p1 s true).1
      + (1 - pol p1 s) * (prob p1 s false).1)) 20,
   sumUpTo (fun s => 1/20 * (pol p1 s * (prob p1 s true).2.1
      + (1 - pol p1 s) * (prob p1 s false).2.1)) 20,
   sumUpTo (fun s => 1/20 * (pol p1 s * (prob p1 s true).2.2
      + (1 - pol p1 s) * (prob p1 s false).2.2)) 20)

/-- Stage-2 policy collapse of the simulator variant (weighted skip). -/
def second_player_policy_probability_sim (pol : Nat → Nat → ℚ)
    (prob : Nat → Nat → Bool → Tri) (p1 : Nat) : Tri :=
  let w := pol p1 0
  (w * (prob p1 0 false).1 + (1 - w) * (spinIntegral2 pol prob p1).1,
   w * (prob p1 0 false).2.1 + (1 - w) * (spinIntegral2 pol prob p1).2.1,
   w * (prob p1 0 false).2.2 + (1 - w) * (spinIntegral2 pol prob p1).2.2)

/-- The uniform first-spin integral of a stage-1 collapse. -/
def spinIntegral1 (pol : Nat → ℚ) (prob : Nat → Bool → Tri) : Tri :=
  (sumUpTo (fun s => 1/20 * (pol s * (prob s true).1
      + (1 - pol s) * (prob s false).1)) 20,
   sumUpTo (fun s => 1/20 * (pol s * (prob s true).2.1
      + (1 - pol s) * (prob s false).2.1)) 20,
   sumUpTo (fun s => 1/20 * (pol s * (prob s true).2.2
      + (1 - pol s) * (prob s false).2.2)) 20)

/-- Stage-1 policy collapse of the simulator variant (weighted skip). -/
def first_player_policy_probability_sim (pol : Nat → ℚ)
    (prob : Nat → Bool → Tri) : Tri :=
  let w := pol 0
  (w * (prob 0 false).1 + (1 - w) * (spinIntegral1 pol prob).1,
   w * (prob 0 false).2.1 + (1 - w) * (spinIntegral1 pol prob).2.1,
   w * (prob 0 false).2.2 + (1 - w) * (spinIntegral1 pol prob).2.2)

/-! ## The assumption tracker, from `assumptions.cpp` -/

/-- `Assumption`: a named unknown with an assumed value and a live
interval `[min_bound, max_bound]`; every relational comparison against a
concrete rational narrows one of the bounds as a side effect.  The C++
`Fraction` fields are modelled by `ℚ`. -/
structure Assumption where
  value : ℚ
  min_bound : ℚ
  max_bound : ℚ
  name : String
deriving DecidableEq

/-- `Assumption::operator>(Fraction)`: returns `value > other` and
narrows `min_bound` (taken branch "exceeds") or `max_bound` (taken
branch "does not exceed"). -/
def Assumption.gtF (a : Assumption) (other : ℚ) : Bool × Assumption :=
  if a.value > other then
    (true, ⟨a.value, max a.min_bound other, a.max_bound, a.name⟩)
  else
    (false, ⟨a.value, a.min_bound, min a.max_bound other, a.name⟩)

/-- `Assumption::operator<(Fraction)`. -/
def Assumption.ltF (a : Assumption) (other : ℚ) : Bool × Assumption :=
  if a.value < other then
    (true, ⟨a.value, a.min_bound, min a.max_bound other, a.name⟩)
  else
    (false, ⟨a.value, max a.min_bound other, a.max_bound, a.name⟩)

/-- `Assumption::operator>=`, defined in the C++ as `!(*this < other)`. -/
def Assumption.geF (a : Assumption) (other : ℚ) : Bool × Assumption :=
  let r := a.ltF other
  (!r.1, r.2)

/-- `Assumption::operator<=`, defined in the C++ as `!(*this > other)`. -/
def Assumption.leF (a : Assumption) (other : ℚ) : Bool × Assumption :=
  let r := a.gtF other
  (!r.1, r.2)

/-- Friend `operator>(Fraction, Assumption)`, i.e. `rhs < lhs`. -/
def Assumption.fGt (lhs : ℚ) (a : Assumption) : Bool × Assumption := a.ltF lhs

/-- Friend `operator<(Fraction, Assumption)`, i.e. `rhs > lhs`. -/
def Assumption.fLt (lhs : ℚ) (a : Assumption) : Bool × Assumption := a.gtF lhs

/-- Friend `operator>=(Fraction, Assumption)`, i.e. `rhs <= lhs`. -/
def Assumption.fGe (lhs : ℚ) (a : Assumption) : Bool × Assumption := a.leF lhs

/-- Friend `operator<=(Fraction, Assumption)`, i.e. `rhs >= lhs`. -/
def Assumption.fLe (lhs : ℚ) (a : Assumption) : Bool × Assumption := a.geF lhs

/-- `Assumption::is_valid(Fraction)`: inclusive interval membership. -/
def Assumption.is_valid (a : Assumption) (true_value : ℚ) : Bool :=
  decide (a.min_bound ≤ true_value) && decide (true_value ≤ a.max_bound)

/-- One recorded comparison event: which operator was called and with
which threshold. -/
inductive CmpEvent where
  | gt (t : ℚ)
  | lt (t : ℚ)
  | ge (t : ℚ)
  | le (t : ℚ)

/-- Apply a recorded comparison's side effect to the tracker state. -/
def applyCmp (a : Assumption) : CmpEvent → Assumption
  | CmpEvent.gt t => (a.gtF t).2
  | CmpEvent.lt t => (a.ltF t).2
  | CmpEvent.ge t => (a.geF t).2
  | CmpEvent.le t => (a.leF t).2

/-- Apply a sequence of recorded comparisons left to right. -/
def applyCmps (a : Assumption) : List CmpEvent → Assumption
  | [] => a
  | c :: cs => applyCmps (applyCmp a c) cs

/-! ## The fixed-width `Fraction` representation

`fraction.cpp` stores `long long numerator; long long denominator;`.
`Fraction64` models that representation: every C++ arithmetic step is
wrapped to the signed 64-bit range (`wrap64`), and the throwing
constructor is modelled with `Option`. -/

/-- Signed 64-bit wraparound of an integer. -/
def wrap64 (x : Int) : Int := (x + 2^63) % 2^64 - 2^63

/-- A fraction as stored by the C++ class: two `long long` fields. -/
structure Fraction64 where
  num : Int
  den : Int
deriving DecidableEq

/-- The C++ constructor / `simplify()`: throws on a zero denominator
(`none`), canonicalizes 0 to 0/1, divides by `std::gcd(|num|,|den|)`
(C++ `/` on exactly dividing operands is truncating division `tdiv`),
and makes the denominator positive. -/
def Fraction64.mk' (n d : Int) : Option Fraction64 :=
  if d = 0 then none
  else if n = 0 then some ⟨0, 1⟩
  else
    let g : Int := Int.gcd n d
    let n' := n.tdiv g
    let d' := d.tdiv g
    if d' < 0 then some ⟨wrap64 (-n'), wrap64 (-d')⟩ else some ⟨n', d'⟩

/-- `Fraction::operator*`: `new_num = numerator * other.numerator;
new_den = denominator * other.denominator;` with 64-bit products, then
re-normalization. -/
def Fraction64.mul (a b : Fraction64) : Option Fraction64 :=
  Fraction64.mk' (wrap64 (a.num * b.num)) (wrap64 (a.den * b.den))

/-- `Fraction::operator+` with 64-bit intermediate products and sum. -/
def Fraction64.add (a b : Fraction64) : Option Fraction64 :=
  Fraction64.mk' (wrap64 (wrap64 (a.num * b.den) + wrap64 (b.num * a.den)))
    (wrap64 (a.den * b.den))

/-- The rational value represented by a `Fraction64`. -/
def Fraction64.toRat (a : Fraction64) : ℚ := (a.num : ℚ) / (a.den : ℚ)

/-! ## Integer-scaled model of the `dynamic_programming.cpp` tables

Every probability in a given table is a multiple of a fixed per-stage
denominator: stage-3 branch values of `1/480`, collapsed stage-3 values
of `1/9600`, stage-2 values of `1/192000`, collapsed `1/3840000`,
stage-1 values of `1/76800000`, final values of `1/1536000000`.  The
`..N` definitions compute the integer numerators at those scales, the
optimal policies as `Bool` decisions; correspondence theorems below
prove them equal to the `ℚ` definitions.  All concrete table values are
obtained by kernel evaluation of this model. -/

/-- Integer triple: an outcome distribution times the stage scale. -/
abbrev ITri := Int × Int × Int

/-- `third_stop_w` times 240. -/
def stopN (p1 p2 t : Nat) : Int :=
  if t > p1 ∧ t > p2 then 240
  else if t = p1 ∧ t = p2 then 80
  else if t = max p1 p2 then 120
  else 0

/-- One face's contribution to `third_spin_w`, times 240. -/
def spinTermN (p1 p2 spin ns : Nat) : Int :=
  if ns + spin > 20 then (if p1 + p2 = 0 then 4 else 0)
  else if ns + spin > p1 ∧ ns + spin > p2 then 12
  else if ns + spin = p1 ∧ ns + spin = p2 then 4
  else if ns + spin = max p1 p2 then 6
  else 0

/-- Player 3's branch win probability times 240. -/
def wN (p1 p2 spin : Nat) (again : Bool) : Int :=
  if again then sumUpTo (spinTermN p1 p2 spin) 20 else stopN p1 p2 spin

/-- `third_player_probability` times 480. -/
def third_probN (p1 p2 spin : Nat) (again : Bool) : ITri :=
  let w := wN p1 p2 spin again
  if p1 = p2 then (240 - w, 240 - w, 2 * w)
  else if p1 > p2 then (480 - 2 * w, 0, 2 * w)
  else (0, 480 - 2 * w, 2 * w)

/-- `third_player_optimal_policy` as a `Bool` (true = spin again). -/
def third_polN (p1 p2 s : Nat) : Bool :=
  if s = 0 then false
  else (third_probN p1 p2 s false).2.2 < (third_probN p1 p2 s true).2.2

/-- `third_player_policy_probability` under the optimal policy, times 9600. -/
def tppN (p1 p2 : Nat) : ITri :=
  if third_polN p1 p2 0 then
    (20 * (third_probN p1 p2 0 false).1, 20 * (third_probN p1 p2 0 false).2.1,
     20 * (third_probN p1 p2 0 false).2.2)
  else
    (sumUpTo (fun s => if third_polN p1 p2 s then (third_probN p1 p2 s true).1
        else (third_probN p1 p2 s false).1) 20,
     sumUpTo (fun s => if third_polN p1 p2 s then (third_probN p1 p2 s true).2.1
        else (third_probN p1 p2 s false).2.1) 20,
     sumUpTo (fun s => if third_polN p1 p2 s then (third_probN p1 p2 s true).2.2
        else (third_probN p1 p2 s false).2.2) 20)

/-- `second_player_probability` times 20·S, where the stage-3 collapsed
table argument `t` is at scale S. -/
def secondN (t : Nat → Nat → ITri) (p1 spin1 : Nat) (b : Bool) : ITri :=
  if b then
    (sumUpTo (fun ns => (t p1 (if spin1 + ns > 20 then 0 else spin1 + ns)).1) 20,
     sumUpTo (fun ns => (t p1 (if spin1 + ns > 20 then 0 else spin1 + ns)).2.1) 20,
     sumUpTo (fun ns => (t p1 (if spin1 + ns > 20 then 0 else spin1 + ns)).2.2) 20)
  else (20 * (t p1 spin1).1, 20 * (t p1 spin1).2.1, 20 * (t p1 spin1).2.2)

/-- `second_player_optimal_policy` as a `Bool`. -/
def secondPolN (t : Nat → Nat → ITri) (p1 s : Nat) : Bool :=
  if s = 0 then false
  else (secondN t p1 s false).2.1 < (secondN t p1 s true).2.1

/-- `second_player_policy_probability` under the optimal policy, times 20
the scale of `secondN t`. -/
def sppN (t : Nat → Nat → ITri) (p1 : Nat) : ITri :=
  if secondPolN t p1 0 then
    (20 * (secondN t p1 0 false).1, 20 * (secondN t p1 0 false).2.1,
     20 * (secondN t p1 0 false).2.2)
  else
    (sumUpTo (fun s => if secondPolN t p1 s then (secondN t p1 s true).1
        else (secondN t p1 s false).1) 20,
     sumUpTo (fun s => if secondPolN t p1 s then (secondN t p1 s true).2.1
        else (secondN t p1 s false).2.1) 20,
     sumUpTo (fun s => if secondPolN t p1 s then (secondN t p1 s true).2.2
        else (secondN t p1 s false).2.2) 20)

/-- `first_player_probability` times 20·S, the stage-2 collapsed table
argument `sp` being at scale S. -/
def firstN (sp : Nat → ITri) (spin1 : Nat) (b : Bool) : ITri :=
  if b then
    (sumUpTo (fun ns => (sp (if spin1 + ns > 20 then 0 else spin1 + ns)).1) 20,
     sumUpTo (fun ns => (sp (if spin1 + ns > 20 then 0 else spin1 + ns)).2.1) 20,
     sumUpTo (fun ns => (sp (if spin1 + ns > 20 then 0 else spin1 + ns)).2.2) 20)
  else (20 * (sp spin1).1, 20 * (sp spin1).2.1, 20 * (sp spin1).2.2)

/-- `first_player_optimal_policy` as a `Bool` (it compares component
`.2.1`, player 2's entry, exactly as the C++ does). -/
def firstPolN (sp : Nat → ITri) (s : Nat) : Bool :=
  if s = 0 then false
  else (firstN sp s false).2.1 < (firstN sp s true).2.1

/-- `first_player_policy_probability` under the optimal policy, times 20
the scale of `firstN sp`. -/
def finalN (sp : Nat → ITri) : ITri :=
  if firstPolN sp 0 then
    (20 * (firstN sp 0 false).1, 20 * (firstN sp 0 false).2.1,
     20 * (firstN sp 0 false).2.2)
  else
    (sumUpTo (fun s => if firstPolN sp s then (firstN sp s true).1
        else (firstN sp s false).1) 20,
     sumUpTo (fun s => if firstPolN sp s then (firstN sp s true).2.1
        else (firstN sp s false).2.1) 20,
     sumUpTo (fun s => if firstPolN sp s then (firstN sp s true).2.2
        else (firstN sp s false).2.2) 20)

def tppNData : List (List (Int × Int × Int)) := [
  [(0, 0, 9600), (0, 24, 9576), (0, 84, 9516), (0, 192, 9408), (0, 348, 9252), (0, 552, 9048), (0, 804, 8796), (0, 1104, 8496), (0, 1452, 8148), (0, 1848, 7752), (0, 2292, 7308), (0, 2760, 6840), (0, 3276, 6324), (0, 3840, 5760), (0, 4452, 5148), (0, 5112, 4488), (0, 5820, 3780), (0, 6576, 3024), (0, 7380, 2220), (0, 8232, 1368), (0, 9132, 468)],
  [(24, 0, 9576), (12, 12, 9576), (0, 84, 9516), (0, 192, 9408), (0, 348, 9252), (0, 552, 9048), (0, 804, 8796), (0, 1104, 8496), (0, 1452, 8148), (0, 1848, 7752), (0, 2292, 7308), (0, 2760, 6840), (0, 3276, 6324), (0, 3840, 5760), (0, 4452, 5148), (0, 5112, 4488), (0, 5820, 3780), (0, 6576, 3024), (0, 7380, 2220), (0, 8232, 1368), (0, 9132, 468)],
  [(84, 0, 9516), (84, 0, 9516), (44, 44, 9512), (0, 192, 9408), (0, 348, 9252), (0, 552, 9048), (0, 804, 8796), (0, 1104, 8496), (0, 1452, 8148), (0, 1848, 7752), (0, 2292, 7308), (0, 2760, 6840), (0, 3276, 6324), (0, 3840, 5760), (0, 4452, 5148), (0, 5112, 4488), (0, 5820, 3780), (0, 6576, 3024), (0, 7380, 2220), (0, 8232, 1368), (0, 9132, 468)],
  [(192, 0, 9408), (192, 0, 9408), (192, 0, 9408), (100, 100, 9400), (0, 348, 9252), (0, 552, 9048), (0, 804, 8796), (0, 1104, 8496), (0, 1452, 8148), (0, 1848, 7752), (0, 2292, 7308), (0, 2760, 6840), (0, 3276, 6324), (0, 3840, 5760), (0, 4452, 5148), (0, 5112, 4488), (0, 5820, 3780), (0, 6576, 3024), (0, 7380, 2220), (0, 8232, 1368), (0, 9132, 468)],
  [(348, 0, 9252), (348, 0, 9252), (348, 0, 9252), (348, 0, 9252), (180, 180, 9240), (0, 552, 9048), (0, 804, 8796), (0, 1104, 8496), (0, 1452, 8148), (0, 1848, 7752), (0, 2292, 7308), (0, 2760, 6840), (0, 3276, 6324), (0, 3840, 5760), (0, 4452, 5148), (0, 5112, 4488), (0, 5820, 3780), (0, 6576, 3024), (0, 7380, 2220), (0, 8232, 1368), (0, 9132, 468)],
  [(552, 0, 9048), (552, 0, 9048), (552, 0, 9048), (552, 0, 9048), (552, 0, 9048), (284, 284, 9032), (0, 804, 8796), (0, 1104, 8496), (0, 1452, 8148), (0, 1848, 7752), (0, 2292, 7308), (0, 2760, 6840), (0, 3276, 6324), (0, 3840, 5760), (0, 4452, 5148), (0, 5112, 4488), (0, 5820, 3780), (0, 6576, 3024), (0, 7380, 2220), (0, 8232, 1368), (0, 9132, 468)],
  [(804, 0, 8796), (804, 0, 8796), (804, 0, 8796), (804, 0, 8796), (804, 0, 8796), (804, 0, 8796), (412, 412, 8776), (0, 1104, 8496), (0, 1452, 8148), (0, 1848, 7752), (0, 2292, 7308), (0, 2760, 6840), (0, 3276, 6324), (0, 3840, 5760), (0, 4452, 5148), (0, 5112, 4488), (0, 5820, 3780), (0, 6576, 3024), (0, 7380, 2220), (0, 8232, 1368), (0, 9132, 468)],
  [(1104, 0, 8496), (1104, 0, 8496), (1104, 0, 8496), (1104, 0, 8496), (1104, 0, 8496), (1104, 0, 8496), (1104, 0, 8496), (564, 564, 8472), (0, 1452, 8148), (0, 1848, 7752), (0, 2292, 7308), (0, 2760, 6840), (0, 3276, 6324), (0, 3840, 5760), (0, 4452, 5148), (0, 5112, 4488), (0, 5820, 3780), (0, 6576, 3024), (0, 7380, 2220), (0, 8232, 1368), (0, 9132, 468)],
  [(1452, 0, 8148), (1452, 0, 8148), (1452, 0, 8148), (1452, 0, 8148), (1452, 0, 8148), (1452, 0, 8148), (1452, 0, 8148), (1452, 0, 8148), (740, 740, 8120), (0, 1848, 7752), (0, 2292, 7308), (0, 2760, 6840), (0, 3276, 6324), (0, 3840, 5760), (0, 4452, 5148), (0, 5112, 4488), (0, 5820, 3780), (0, 6576, 3024), (0, 7380, 2220), (0, 8232, 1368), (0, 9132, 468)],
  [(1848, 0, 7752), (1848, 0, 7752), (1848, 0, 7752), (1848, 0, 7752), (1848, 0, 7752), (1848, 0, 7752), (1848, 0, 7752), (1848, 0, 7752), (1848, 0, 7752), (940, 940, 7720), (0, 2292, 7308), (0, 2760, 6840), (0, 3276, 6324), (0, 3840, 5760), (0, 4452, 5148), (0, 5112, 4488), (0, 5820, 3780), (0, 6576, 3024), (0, 7380, 2220), (0, 8232, 1368), (0, 9132, 468)],
  [(2292, 0, 7308), (2292, 0, 7308), (2292, 0, 7308), (2292, 0, 7308), (2292, 0, 7308), (2292, 0, 7308), (2292, 0, 7308), (2292, 0, 7308), (2292, 0, 7308), (2292, 0, 7308), (1164, 1164, 7272), (0, 2760, 6840), (0, 3276, 6324), (0, 3840, 5760), (0, 4452, 5148), (0, 5112, 4488), (0, 5820, 3780), (0, 6576, 3024), (0, 7380, 2220), (0, 8232, 1368), (0, 9132, 468)],
  [(2760, 0, 6840), (2760, 0, 6840), (2760, 0, 6840), (2760, 0, 6840), (2760, 0, 6840), (2760, 0, 6840), (2760, 0, 6840), (2760, 0, 6840), (2760, 0, 6840), (2760, 0, 6840), (2760, 0, 6840), (1412, 1412, 6776), (0, 3276, 6324), (0, 3840, 5760), (0, 4452, 5148), (0, 5112, 4488), (0, 5820, 3780), (0, 6576, 3024), (0, 7380, 2220), (0, 8232, 1368), (0, 9132, 468)],
  [(3276, 0, 6324), (3276, 0, 6324), (3276, 0, 6324), (3276, 0, 6324), (3276, 0, 6324), (3276, 0, 6324), (3276, 0, 6324), (3276, 0, 6324), (3276, 0, 6324), (3276, 0, 6324), (3276, 0, 6324), (3276, 0, 6324), (1684, 1684, 6232), (0, 3840, 5760), (0, 4452, 5148), (0, 5112, 4488), (0, 5820, 3780), (0, 6576, 3024), (0, 7380, 2220), (0, 8232, 1368), (0, 9132, 468)],
  [(3840, 0, 5760), (3840, 0, 5760), (3840, 0, 5760), (3840, 0, 5760), (3840, 0, 5760), (3840, 0, 5760), (3840, 0, 5760), (3840, 0, 5760), (3840, 0, 5760), (3840, 0, 5760), (3840, 0, 5760), (3840, 0, 5760), (3840, 0, 5760), (1980, 1980, 5640), (0, 4452, 5148), (0, 5112, 4488), (0, 5820, 3780), (0, 6576, 3024), (0, 7380, 2220), (0, 8232, 1368), (0, 9132, 468)],
  [(4452, 0, 5148), (4452, 0, 5148), (4452, 0, 5148), (4452, 0, 5148), (4452, 0, 5148), (4452, 0, 5148), (4452, 0, 5148), (4452, 0, 5148), (4452, 0, 5148), (4452, 0, 5148), (4452, 0, 5148), (4452, 0, 5148), (4452, 0, 5148), (4452, 0, 5148), (2292, 2292, 5016), (0, 5112, 4488), (0, 5820, 3780), (0, 6576, 3024), (0, 7380, 2220), (0, 8232, 1368), (0, 9132, 468)],
  [(5112, 0, 4488), (5112, 0, 4488), (5112, 0, 4488), (5112, 0, 4488), (5112, 0, 4488), (5112, 0, 4488), (5112, 0, 4488), (5112, 0, 4488), (5112, 0, 4488), (5112, 0, 4488), (5112, 0, 4488), (5112, 0, 4488), (5112, 0, 4488), (5112, 0, 4488), (5112, 0, 4488), (2624, 2624, 4352), (0, 5820, 3780), (0, 6576, 3024), (0, 7380, 2220), (0, 8232, 1368), (0, 9132, 468)],
  [(5820, 0, 3780), (5820, 0, 3780), (5820, 0, 3780), (5820, 0, 3780), (5820, 0, 3780), (5820, 0, 3780), (5820, 0, 3780), (5820, 0, 3780), (5820, 0, 3780), (5820, 0, 3780), (5820, 0, 3780), (5820, 0, 3780), (5820, 0, 3780), (5820, 0, 3780), (5820, 0, 3780), (5820, 0, 3780), (2980, 2980, 3640), (0, 6576, 3024), (0, 7380, 2220), (0, 8232, 1368), (0, 9132, 468)],
  [(6576, 0, 3024), (6576, 0, 3024), (6576, 0, 3024), (6576, 0, 3024), (6576, 0, 3024), (6576, 0, 3024), (6576, 0, 3024), (6576, 0, 3024), (6576, 0, 3024), (6576, 0, 3024), (6576, 0, 3024), (6576, 0, 3024), (6576, 0, 3024), (6576, 0, 3024), (6576, 0, 3024), (6576, 0, 3024), (6576, 0, 3024), (3360, 3360, 2880), (0, 7380, 2220), (0, 8232, 1368), (0, 9132, 468)],
  [(7380, 0, 2220), (7380, 0, 2220), (7380, 0, 2220), (7380, 0, 2220), (7380, 0, 2220), (7380, 0, 2220), (7380, 0, 2220), (7380, 0, 2220), (7380, 0, 2220), (7380, 0, 2220), (7380, 0, 2220), (7380, 0, 2220), (7380, 0, 2220), (7380, 0, 2220), (7380, 0, 2220), (7380, 0, 2220), (7380, 0, 2220), (7380, 0, 2220), (3764, 3764, 2072), (0, 8232, 1368), (0, 9132, 468)],
  [(8232, 0, 1368), (8232, 0, 1368), (8232, 0, 1368), (8232, 0, 1368), (8232, 0, 1368), (8232, 0, 1368), (8232, 0, 1368), (8232, 0, 1368), (8232, 0, 1368), (8232, 0, 1368), (8232, 0, 1368), (8232, 0, 1368), (8232, 0, 1368), (8232, 0, 1368), (8232, 0, 1368), (8232, 0, 1368), (8232, 0, 1368), (8232, 0, 1368), (8232, 0, 1368), (4192, 4192, 1216), (0, 9132, 468)],
  [(9132, 0, 468), (9132, 0, 468), (9132, 0, 468), (9132, 0, 468), (9132, 0, 468), (9132, 0, 468), (9132, 0, 468), (9132, 0, 468), (9132, 0, 468), (9132, 0, 468), (9132, 0, 468), (9132, 0, 468), (9132, 0, 468), (9132, 0, 468), (9132, 0, 468), (9132, 0, 468), (9132, 0, 468), (9132, 0, 468), (9132, 0, 468), (9132, 0, 468), (4644, 4644, 312)]]

/-- Literal lookup for `tppN` (row `p1`, column `p2`). -/
def tppNL (p1 p2 : Nat) : ITri := (tppNData.getD p1 []).getD p2 (0, 0, 0)

def sppNData : List (Int × Int × Int) := [
  (0, 1757340, 2082660),
  (1320, 1757340, 2081340),
  (4664, 1757300, 2078036),
  (10952, 1757072, 2071976),
  (20724, 1756368, 2062908),
  (34808, 1754756, 2050436),
  (54320, 1751660, 2034020),
  (80664, 1746360, 2012976),
  (115532, 1737992, 1986476),
  (160904, 1725548, 1953548),
  (219048, 1707876, 1913076),
  (320480, 1682540, 1836980),
  (454232, 1635932, 1749836),
  (626640, 1564992, 1648368),
  (828024, 1469952, 1542024),
  (1091168, 1351976, 1396856),
  (1413800, 1200500, 1225700),
  (1804416, 1011744, 1023840),
  (2272088, 781736, 786176),
  (2826464, 506312, 507224),
  (3477768, 181116, 181116)]

/-- Literal lookup for `sppN tppN`. -/
def sppNL (p1 : Nat) : ITri := sppNData.getD p1 (0, 0, 0)

def firstNData : List ((Int × Int × Int) × (Int × Int × Int)) := [
  ((0, 35146800, 41653200), (15818016, 28839072, 32142912)),
  ((26400, 35146800, 41626800), (15816696, 28839072, 32144232)),
  ((93280, 35146000, 41560720), (15812032, 28839112, 32148856)),
  ((219040, 35141440, 41439520), (15801080, 28839380, 32159540)),
  ((414480, 35127360, 41258160), (15780356, 28840352, 32179292)),
  ((696160, 35095120, 41008720), (15745548, 28842936, 32211516)),
  ((1086400, 35033200, 40680400), (15691228, 28848616, 32260156)),
  ((1613280, 34927200, 40259520), (15610564, 28859596, 32329840)),
  ((2310640, 34759840, 39729520), (15495032, 28878944, 32426024)),
  ((3218080, 34510960, 39070960), (15334128, 28910736, 32555136)),
  ((4380960, 34157520, 38261520), (15115080, 28960200, 32724720)),
  ((6409600, 33650800, 36739600), (14794600, 29035000, 32970400)),
  ((9084640, 32718640, 34996720), (14340368, 29156408, 33303224)),
  ((12532800, 31299840, 32967360), (13713728, 29348756, 33737516)),
  ((16560480, 29399040, 30840480), (12885704, 29636144, 34278152)),
  ((21823360, 27039520, 27937120), (11794536, 30041508, 34963956)),
  ((28276000, 24010000, 24514000), (10380736, 30598348, 35820916)),
  ((36088320, 20234880, 20476800), (8576320, 31343944, 36879736)),
  ((45441760, 15634720, 15723520), (6304232, 32319548, 38176220)),
  ((56529280, 10126240, 10144480), (3477768, 33570576, 39751656)),
  ((69555360, 3622320, 3622320), (0, 35146800, 41653200))]

/-- Literal lookup for `firstN (sppN tppN)` (`.1` = stop, `.2` = spin again). -/
def firstNL (s : Nat) (b : Bool) : ITri :=
  if b then (firstNData.getD s ((0, 0, 0), (0, 0, 0))).2
  else (firstNData.getD s ((0, 0, 0), (0, 0, 0))).1
/-! ## The two-participant replay sub-game (Tie Resolver, recursive mode)

Modelled from the spec: "the true outcome is a fresh replay of the whole
game restricted to the two tied participants", to be solved "with the
same Stage Solver machinery, two participants instead of three".  The
repository's solver files never compute this sub-game; the definitions
below instantiate the stage-solver machinery of
`dynamic_programming.cpp` for two participants (last-acting stage,
policy collapse, first-acting stage, final collapse).  As in the
three-player machinery, a tie inside the sub-game is an equal split
(`1/2`), and a bust is a total of 0 (losing unless the other
participant also busted). -/

/-- Modelled from the spec: the second (last-acting) participant's win
probability when stopping at total `t` against the first participant's
total `p1`. -/
def spinoff_stop_w (p1 t : Nat) : ℚ :=
  if t > p1 then 1 else if t = p1 then 1/2 else 0

/-- Modelled from the spec: the sub-game's last-acting stage raw table
(stop / spin-again win probability of the second participant). -/
def spinoff_second_probability (p1 s : Nat) (again : Bool) : ℚ :=
  if again then
    sumUpTo (fun ns => 1/20 * spinoff_stop_w p1 (if s + ns > 20 then 0 else s + ns)) 20
  else spinoff_stop_w p1 s

/-- Modelled from the spec: the sub-game's second-participant optimal
policy (same shape as `third_player_optimal_policy`). -/
def spinoff_second_optimal_policy (p1 s : Nat) : ℚ :=
  if s = 0 then 0
  else if spinoff_second_probability p1 s true > spinoff_second_probability p1 s false
    then 1 else 0

/-- Modelled from the spec: the sub-game's last-acting stage policy
collapse (second participant's win probability given `p1`). -/
def spinoff_second_policy_probability (p1 : Nat) : ℚ :=
  if spinoff_second_optimal_policy p1 0 = 1 then spinoff_second_probability p1 0 false
  else
    sumUpTo (fun s => 1/20 * (spinoff_second_optimal_policy p1 s *
        spinoff_second_probability p1 s true
      + (1 - spinoff_second_optimal_policy p1 s) *
        spinoff_second_probability p1 s false)) 20

/-- Modelled from the spec: the sub-game's first-acting stage raw table,
as a pair (first participant's, second participant's win probability). -/
def spinoff_first_probability (s : Nat) (again : Bool) : ℚ × ℚ :=
  if again then
    (sumUpTo (fun ns => 1/20 *
        (1 - spinoff_second_policy_probability (if s + ns > 20 then 0 else s + ns))) 20,
     sumUpTo (fun ns => 1/20 *
        spinoff_second_policy_probability (if s + ns > 20 then 0 else s + ns)) 20)
  else (1 - spinoff_second_policy_probability s, spinoff_second_policy_probability s)

/-- Modelled from the spec: the sub-game's first-participant optimal
policy (comparing the first participant's own component). -/
def spinoff_first_optimal_policy (s : Nat) : ℚ :=
  if s = 0 then 0
  else if (spinoff_first_probability s true).1 > (spinoff_first_probability s false).1
    then 1 else 0

/-- Modelled from the spec: the solved two-participant sub-game's
outcome, `(first mover's, second mover's)` win probability. -/
def spinoff_outcome : ℚ × ℚ :=
  if spinoff_first_optimal_policy 0 = 1 then spinoff_first_probability 0 false
  else
    (sumUpTo (fun s => 1/20 * (spinoff_first_optimal_policy s *
        (spinoff_first_probability s true).1
      + (1 - spinoff_first_optimal_policy s) * (spinoff_first_probability s false).1)) 20,
     sumUpTo (fun s => 1/20 * (spinoff_first_optimal_policy s *
        (spinoff_first_probability s true).2
      + (1 - spinoff_first_optimal_policy s) * (spinoff_first_probability s false).2)) 20)

/-! Integer model of the sub-game (stage scales 2, 40, 800, 16000, 320000). -/

/-- `spinoff_stop_w` times 2. -/
def spinoff_stopN (p1 t : Nat) : Int :=
  if t > p1 then 2 else if t = p1 then 1 else 0

/-- `spinoff_second_probability` times 40. -/
def spinoff_secondN (p1 s : Nat) (b : Bool) : Int :=
  if b then sumUpTo (fun ns => spinoff_stopN p1 (if s + ns > 20 then 0 else s + ns)) 20
  else 20 * spinoff_stopN p1 s

/-- `spinoff_second_optimal_policy` as a `Bool`. -/
def spinoff_secondPolN (p1 s : Nat) : Bool :=
  if s = 0 then false else spinoff_secondN p1 s false < spinoff_secondN p1 s true

/-- `spinoff_second_policy_probability` times 800. -/
def spinoff_sppN (p1 : Nat) : Int :=
  if spinoff_secondPolN p1 0 then 20 * spinoff_secondN p1 0 false
  else
    sumUpTo (fun s => if spinoff_secondPolN p1 s then spinoff_secondN p1 s true
      else spinoff_secondN p1 s false) 20

/-- `spinoff_first_probability` times 16000 (argument `c2` is
`spinoff_sppN`, at scale 800). -/
def spinoff_firstN (c2 : Nat → Int) (s : Nat) (b : Bool) : Int × Int :=
  if b then
    (sumUpTo (fun ns => 800 - c2 (if s + ns > 20 then 0 else s + ns)) 20,
     sumUpTo (fun ns => c2 (if s + ns > 20 then 0 else s + ns)) 20)
  else (20 * (800 - c2 s), 20 * c2 s)

/-- `spinoff_first_optimal_policy` as a `Bool`. -/
def spinoff_firstPolN (c2 : Nat → Int) (s : Nat) : Bool :=
  if s = 0 then false
  else (spinoff_firstN c2 s false).1 < (spinoff_firstN c2 s true).1

/-- `spinoff_outcome` times 320000. -/
def spinoff_outcomeN (c2 : Nat → Int) : Int × Int :=
  if spinoff_firstPolN c2 0 then
    (20 * (spinoff_firstN c2 0 false).1, 20 * (spinoff_firstN c2 0 false).2)
  else
    (sumUpTo (fun s => if spinoff_firstPolN c2 s then (spinoff_firstN c2 s true).1
        else (spinoff_firstN c2 s false).1) 20,
     sumUpTo (fun s => if spinoff_firstPolN c2 s then (spinoff_firstN c2 s true).2
        else (spinoff_firstN c2 s false).2) 20)

/-- Literal values of `spinoff_sppN` (scale 800), certified below. -/
def c2NData : List Int := [800, 798, 793, 784, 771, 754, 733, 708, 679, 646, 609,
  570, 527, 480, 429, 374, 315, 252, 185, 114, 39]

/-- Literal lookup for `spinoff_sppN`. -/
def c2NL (p1 : Nat) : Int := c2NData.getD p1 0
/-- A probe policy whose spin-0 value (the skip weight) is 1/2 and which
always stops after the first spin. -/
def polHalf : Nat → Nat → Nat → ℚ := fun _ _ s => if s = 0 then 1/2 else 0

theorem sumUpTo_congr {α : Type} [Add α] [Zero α] {f g : Nat → α} {n : Nat}
    (h : ∀ i, 1 ≤ i → i ≤ n → f i = g i) : sumUpTo f n = sumUpTo g n := by
  induction n with
  | zero => rfl
  | succ n ih =>
      simp only [sumUpTo]
      rw [ih fun i h1 h2 => h i h1 (h2.trans n.le_succ), h (n + 1) n.succ_pos (le_refl _)]

theorem sumUpTo_intCast_div (f : Nat → Int) (c : ℚ) (n : Nat) :
    sumUpTo (fun i => ((f i : ℚ) / c)) n = ((sumUpTo f n : Int) : ℚ) / c := by
  induction n with
  | zero => simp [sumUpTo]
  | succ n ih => simp only [sumUpTo]; push_cast; rw [add_div, ih]

theorem sumUpTo_const (c : ℚ) (n : Nat) : sumUpTo (fun _ => c) n = n * c := by
  induction n with
  | zero => simp [sumUpTo]
  | succ n ih => simp only [sumUpTo, ih]; push_cast; ring

theorem sumUpTo_add (f g : Nat → ℚ) (n : Nat) :
    sumUpTo f n + sumUpTo g n = sumUpTo (fun i => f i + g i) n := by
  induction n with
  | zero => simp [sumUpTo]
  | succ n ih => simp only [sumUpTo]; rw [← ih]; ring

/-! ## Correspondence between the `ℚ` tables and the integer model -/

theorem wN_corr (p1 p2 s : Nat) (b : Bool) :
    (if b then third_spin_w p1 p2 s else third_stop_w p1 p2 s) =
      ((wN p1 p2 s b : Int) : ℚ) / 240 := by
  cases b with
  | false =>
      simp only [wN, Bool.false_eq_true, if_false, third_stop_w, stopN]
      split_ifs <;> norm_num
  | true =>
      have hterm : ∀ ns, (if ns + s > 20 then 1/20 * (if p1 + p2 = 0 then (1:ℚ)/3 else 0)
          else 1/20 * third_stop_w p1 p2 (ns + s)) =
            ((spinTermN p1 p2 s ns : Int) : ℚ) / 240 := by
        intro ns
        simp only [spinTermN, third_stop_w]
        split_ifs <;> norm_num
      simp only [wN, if_true, third_spin_w]
      calc sumUpTo (fun ns => if ns + s > 20 then 1/20 * (if p1 + p2 = 0 then (1:ℚ)/3 else 0)
              else 1/20 * third_stop_w p1 p2 (ns + s)) 20
          = sumUpTo (fun ns => ((spinTermN p1 p2 s ns : Int) : ℚ) / 240) 20 :=
            sumUpTo_congr fun i _ _ => hterm i
        _ = ((sumUpTo (spinTermN p1 p2 s) 20 : Int) : ℚ) / 240 :=
            sumUpTo_intCast_div _ _ _

theorem third_corr (p1 p2 s : Nat) (b : Bool) :
    third_player_probability p1 p2 s b =
      (((third_probN p1 p2 s b).1 : ℚ) / 480,
       ((third_probN p1 p2 s b).2.1 : ℚ) / 480,
       ((third_probN p1 p2 s b).2.2 : ℚ) / 480) := by
  have hw := wN_corr p1 p2 s b
  simp only [third_player_probability, third_probN]
  rw [hw]
  split_ifs <;>
    (simp only [Prod.mk.injEq]; refine ⟨?_, ?_, ?_⟩ <;> (push_cast; ring))

theorem third_pol_corr (p1 p2 s : Nat) :
    third_player_optimal_policy p1 p2 s = if third_polN p1 p2 s then 1 else 0 := by
  by_cases hs : s = 0
  · subst hs; simp [third_player_optimal_policy, third_polN]
  · simp only [third_player_optimal_policy, third_polN, if_neg hs]
    refine if_congr ?_ rfl rfl
    rw [third_corr p1 p2 s true, third_corr p1 p2 s false]
    rw [gt_iff_lt, div_lt_div_iff_of_pos_right (by norm_num : (0:ℚ) < 480), Int.cast_lt]
    exact decide_eq_true_iff.symm

theorem tpp_corr (p1 p2 : Nat) :
    tppOpt p1 p2 =
      (((tppN p1 p2).1 : ℚ) / 9600, ((tppN p1 p2).2.1 : ℚ) / 9600,
       ((tppN p1 p2).2.2 : ℚ) / 9600) := by
  have hpol0 : third_player_optimal_policy p1 p2 0 = 0 := by
    simp [third_player_optimal_policy]
  have hpolN0 : third_polN p1 p2 0 = false := by simp [third_polN]
  have hterm1 : ∀ s, 1/20 * (third_player_optimal_policy p1 p2 s *
        (third_player_probability p1 p2 s true).1
      + (1 - third_player_optimal_policy p1 p2 s) *
        (third_player_probability p1 p2 s false).1) =
      (((if third_polN p1 p2 s then (third_probN p1 p2 s true).1
          else (third_probN p1 p2 s false).1) : Int) : ℚ) / 9600 := by
    intro s
    rw [third_pol_corr, third_corr p1 p2 s true, third_corr p1 p2 s false]
    by_cases h : third_polN p1 p2 s <;> simp only [h, if_true, if_false] <;>
      (push_cast; ring)
  have hterm2 : ∀ s, 1/20 * (third_player_optimal_policy p1 p2 s *
        (third_player_probability p1 p2 s true).2.1
      + (1 - third_player_optimal_policy p1 p2 s) *
        (third_player_probability p1 p2 s false).2.1) =
      (((if third_polN p1 p2 s then (third_probN p1 p2 s true).2.1
          else (third_probN p1 p2 s false).2.1) : Int) : ℚ) / 9600 := by
    intro s
    rw [third_pol_corr, third_corr p1 p2 s true, third_corr p1 p2 s false]
    by_cases h : third_polN p1 p2 s <;> simp only [h, if_true, if_false] <;>
      (push_cast; ring)
  have hterm3 : ∀ s, 1/20 * (third_player_optimal_policy p1 p2 s *
        (third_player_probability p1 p2 s true).2.2
      + (1 - third_player_optimal_policy p1 p2 s) *
        (third_player_probability p1 p2 s false).2.2) =
      (((if third_polN p1 p2 s then (third_probN p1 p2 s true).2.2
          else (third_probN p1 p2 s false).2.2) : Int) : ℚ) / 9600 := by
    intro s
    rw [third_pol_corr, third_corr p1 p2 s true, third_corr p1 p2 s false]
    by_cases h : third_polN p1 p2 s <;> simp only [h, if_true, if_false] <;>
      (push_cast; ring)
  simp only [tppOpt, third_player_policy_probability, tppN, hpolN0,
    Bool.false_eq_true, if_false, if_neg (by rw [hpol0]; norm_num : ¬ third_player_optimal_policy p1 p2 0 = 1)]
  simp only [Prod.mk.injEq]
  refine ⟨?_, ?_, ?_⟩
  · rw [sumUpTo_congr fun i _ _ => hterm1 i, sumUpTo_intCast_div]
  · rw [sumUpTo_congr fun i _ _ => hterm2 i, sumUpTo_intCast_div]
  · rw [sumUpTo_congr fun i _ _ => hterm3 i, sumUpTo_intCast_div]

theorem sprob_corr (p1 s : Nat) (b : Bool) :
    sprobOpt p1 s b =
      (((secondN tppN p1 s b).1 : ℚ) / 192000,
       ((secondN tppN p1 s b).2.1 : ℚ) / 192000,
       ((secondN tppN p1 s b).2.2 : ℚ) / 192000) := by
  have hterm1 : ∀ t, (1:ℚ)/20 * (tppOpt p1 t).1 = (((tppN p1 t).1 : Int) : ℚ) / 192000 := by
    intro t; simp only [tpp_corr]; ring
  have hterm2 : ∀ t, (1:ℚ)/20 * (tppOpt p1 t).2.1 = (((tppN p1 t).2.1 : Int) : ℚ) / 192000 := by
    intro t; simp only [tpp_corr]; ring
  have hterm3 : ∀ t, (1:ℚ)/20 * (tppOpt p1 t).2.2 = (((tppN p1 t).2.2 : Int) : ℚ) / 192000 := by
    intro t; simp only [tpp_corr]; ring
  cases b with
  | false =>
      simp only [sprobOpt, second_player_probability, secondN, Bool.false_eq_true, if_false]
      rw [tpp_corr]
      simp only [Prod.mk.injEq]
      refine ⟨?_, ?_, ?_⟩ <;> (push_cast; ring)
  | true =>
      simp only [sprobOpt, second_player_probability, secondN, if_true]
      simp only [Prod.mk.injEq]
      refine ⟨?_, ?_, ?_⟩
      · rw [sumUpTo_congr fun i _ _ => hterm1 _, sumUpTo_intCast_div]
      · rw [sumUpTo_congr fun i _ _ => hterm2 _, sumUpTo_intCast_div]
      · rw [sumUpTo_congr fun i _ _ => hterm3 _, sumUpTo_intCast_div]

theorem second_pol_corr (p1 s : Nat) :
    second_player_optimal_policy p1 s = if secondPolN tppN p1 s then 1 else 0 := by
  by_cases hs : s = 0
  · subst hs; simp [second_player_optimal_policy, secondPolN]
  · simp only [second_player_optimal_policy, secondPolN, if_neg hs]
    refine if_congr ?_ rfl rfl
    rw [sprob_corr p1 s true, sprob_corr p1 s false]
    rw [gt_iff_lt, div_lt_div_iff_of_pos_right (by norm_num : (0:ℚ) < 192000), Int.cast_lt]
    exact decide_eq_true_iff.symm

theorem spp_corr (p1 : Nat) :
    sppOpt p1 =
      (((sppN tppN p1).1 : ℚ) / 3840000, ((sppN tppN p1).2.1 : ℚ) / 3840000,
       ((sppN tppN p1).2.2 : ℚ) / 3840000) := by
  have hpol0 : second_player_optimal_policy p1 0 = 0 := by
    simp [second_player_optimal_policy]
  have hpolN0 : secondPolN tppN p1 0 = false := by simp [secondPolN]
  have hterm1 : ∀ s, 1/20 * (second_player_optimal_policy p1 s * (sprobOpt p1 s true).1
      + (1 - second_player_optimal_policy p1 s) * (sprobOpt p1 s false).1) =
      (((if secondPolN tppN p1 s then (secondN tppN p1 s true).1
          else (secondN tppN p1 s false).1) : Int) : ℚ) / 3840000 := by
    intro s
    rw [second_pol_corr, sprob_corr p1 s true, sprob_corr p1 s false]
    by_cases h : secondPolN tppN p1 s <;> simp only [h, if_true, if_false] <;>
      (push_cast; ring)
  have hterm2 : ∀ s, 1/20 * (second_player_optimal_policy p1 s * (sprobOpt p1 s true).2.1
      + (1 - second_player_optimal_policy p1 s) * (sprobOpt p1 s false).2.1) =
      (((if secondPolN tppN p1 s then (secondN tppN p1 s true).2.1
          else (secondN tppN p1 s false).2.1) : Int) : ℚ) / 3840000 := by
    intro s
    rw [second_pol_corr, sprob_corr p1 s true, sprob_corr p1 s false]
    by_cases h : secondPolN tppN p1 s <;> simp only [h, if_true, if_false] <;>
      (push_cast; ring)
  have hterm3 : ∀ s, 1/20 * (second_player_optimal_policy p1 s * (sprobOpt p1 s true).2.2
      + (1 - second_player_optimal_policy p1 s) * (sprobOpt p1 s false).2.2) =
      (((if secondPolN tppN p1 s then (secondN tppN p1 s true).2.2
          else (secondN tppN p1 s false).2.2) : Int) : ℚ) / 3840000 := by
    intro s
    rw [second_pol_corr, sprob_corr p1 s true, sprob_corr p1 s false]
    by_cases h : secondPolN tppN p1 s <;> simp only [h, if_true, if_false] <;>
      (push_cast; ring)
  simp only [sppOpt, second_player_policy_probability, sppN, hpolN0,
    Bool.false_eq_true, if_false,
    if_neg (by rw [hpol0]; norm_num : ¬ second_player_optimal_policy p1 0 = 1)]
  simp only [Prod.mk.injEq]
  refine ⟨?_, ?_, ?_⟩
  · rw [sumUpTo_congr fun i _ _ => hterm1 i, sumUpTo_intCast_div]
  · rw [sumUpTo_congr fun i _ _ => hterm2 i, sumUpTo_intCast_div]
  · rw [sumUpTo_congr fun i _ _ => hterm3 i, sumUpTo_intCast_div]

theorem fprob_corr (s : Nat) (b : Bool) :
    fprobOpt s b =
      (((firstN (sppN tppN) s b).1 : ℚ) / 76800000,
       ((firstN (sppN tppN) s b).2.1 : ℚ) / 76800000,
       ((firstN (sppN tppN) s b).2.2 : ℚ) / 76800000) := by
  have hterm1 : ∀ t, (1:ℚ)/20 * (sppOpt t).1 =
      (((sppN tppN t).1 : Int) : ℚ) / 76800000 := by
    intro t; simp only [spp_corr]; ring
  have hterm2 : ∀ t, (1:ℚ)/20 * (sppOpt t).2.1 =
      (((sppN tppN t).2.1 : Int) : ℚ) / 76800000 := by
    intro t; simp only [spp_corr]; ring
  have hterm3 : ∀ t, (1:ℚ)/20 * (sppOpt t).2.2 =
      (((sppN tppN t).2.2 : Int) : ℚ) / 76800000 := by
    intro t; simp only [spp_corr]; ring
  cases b with
  | false =>
      simp only [fprobOpt, first_player_probability, firstN, Bool.false_eq_true, if_false]
      rw [spp_corr]
      simp only [Prod.mk.injEq]
      refine ⟨?_, ?_, ?_⟩ <;> (push_cast; ring)
  | true =>
      simp only [fprobOpt, first_player_probability, firstN, if_true]
      simp only [Prod.mk.injEq]
      refine ⟨?_, ?_, ?_⟩
      · rw [sumUpTo_congr fun i _ _ => hterm1 _, sumUpTo_intCast_div]
      · rw [sumUpTo_congr fun i _ _ => hterm2 _, sumUpTo_intCast_div]
      · rw [sumUpTo_congr fun i _ _ => hterm3 _, sumUpTo_intCast_div]

theorem first_pol_corr (s : Nat) :
    first_player_optimal_policy s = if firstPolN (sppN tppN) s then 1 else 0 := by
  by_cases hs : s = 0
  · subst hs; simp [first_player_optimal_policy, firstPolN]
  · simp only [first_player_optimal_policy, firstPolN, if_neg hs]
    refine if_congr ?_ rfl rfl
    rw [fprob_corr s true, fprob_corr s false]
    rw [gt_iff_lt, div_lt_div_iff_of_pos_right (by norm_num : (0:ℚ) < 76800000), Int.cast_lt]
    exact decide_eq_true_iff.symm

theorem final_corr :
    finalOpt =
      (((finalN (sppN tppN)).1 : ℚ) / 1536000000,
       ((finalN (sppN tppN)).2.1 : ℚ) / 1536000000,
       ((finalN (sppN tppN)).2.2 : ℚ) / 1536000000) := by
  have hpol0 : first_player_optimal_policy 0 = 0 := by
    simp [first_player_optimal_policy]
  have hpolN0 : firstPolN (sppN tppN) 0 = false := by simp [firstPolN]
  have hterm1 : ∀ s, 1/20 * (first_player_optimal_policy s * (fprobOpt s true).1
      + (1 - first_player_optimal_policy s) * (fprobOpt s false).1) =
      (((if firstPolN (sppN tppN) s then (firstN (sppN tppN) s true).1
          else (firstN (sppN tppN) s false).1) : Int) : ℚ) / 1536000000 := by
    intro s
    rw [first_pol_corr, fprob_corr s true, fprob_corr s false]
    by_cases h : firstPolN (sppN tppN) s <;> simp only [h, if_true, if_false] <;>
      (push_cast; ring)
  have hterm2 : ∀ s, 1/20 * (first_player_optimal_policy s * (fprobOpt s true).2.1
      + (1 - first_player_optimal_policy s) * (fprobOpt s false).2.1) =
      (((if firstPolN (sppN tppN) s then (firstN (sppN tppN) s true).2.1
          else (firstN (sppN tppN) s false).2.1) : Int) : ℚ) / 1536000000 := by
    intro s
    rw [first_pol_corr, fprob_corr s true, fprob_corr s false]
    by_cases h : firstPolN (sppN tppN) s <;> simp only [h, if_true, if_false] <;>
      (push_cast; ring)
  have hterm3 : ∀ s, 1/20 * (first_player_optimal_policy s * (fprobOpt s true).2.2
      + (1 - first_player_optimal_policy s) * (fprobOpt s false).2.2) =
      (((if firstPolN (sppN tppN) s then (firstN (sppN tppN) s true).2.2
          else (firstN (sppN tppN) s false).2.2) : Int) : ℚ) / 1536000000 := by
    intro s
    rw [first_pol_corr, fprob_corr s true, fprob_corr s false]
    by_cases h : firstPolN (sppN tppN) s <;> simp only [h, if_true, if_false] <;>
      (push_cast; ring)
  simp only [finalOpt, first_player_policy_probability, finalN, hpolN0,
    Bool.false_eq_true, if_false,
    if_neg (by rw [hpol0]; norm_num : ¬ first_player_optimal_policy 0 = 1)]
  simp only [Prod.mk.injEq]
  refine ⟨?_, ?_, ?_⟩
  · rw [sumUpTo_congr fun i _ _ => hterm1 i, sumUpTo_intCast_div]
  · rw [sumUpTo_congr fun i _ _ => hterm2 i, sumUpTo_intCast_div]
  · rw [sumUpTo_congr fun i _ _ => hterm3 i, sumUpTo_intCast_div]

/-! ## Congruence of the integer model in its table argument -/

theorem secondN_congr {t t' : Nat → Nat → ITri}
    (h : ∀ a c, a ≤ 20 → c ≤ 20 → t a c = t' a c)
    {p1 s : Nat} (hp : p1 ≤ 20) (hs : s ≤ 20) (b : Bool) :
    secondN t p1 s b = secondN t' p1 s b := by
  cases b with
  | false =>
      simp only [secondN, Bool.false_eq_true, if_false, h p1 s hp hs]
  | true =>
      have harg : ∀ ns : Nat, (if s + ns > 20 then 0 else s + ns) ≤ 20 := by
        intro ns; split <;> omega
      simp only [secondN, if_true]
      simp only [Prod.mk.injEq]
      refine ⟨?_, ?_, ?_⟩ <;>
        exact sumUpTo_congr fun i _ _ => by rw [h p1 _ hp (harg i)]

theorem secondPolN_congr {t t' : Nat → Nat → ITri}
    (h : ∀ a c, a ≤ 20 → c ≤ 20 → t a c = t' a c)
    {p1 s : Nat} (hp : p1 ≤ 20) (hs : s ≤ 20) :
    secondPolN t p1 s = secondPolN t' p1 s := by
  by_cases hs0 : s = 0
  · simp [secondPolN, hs0]
  · simp only [secondPolN, if_neg hs0,
      secondN_congr h hp hs true, secondN_congr h hp hs false]

theorem sppN_congr {t t' : Nat → Nat → ITri}
    (h : ∀ a c, a ≤ 20 → c ≤ 20 → t a c = t' a c)
    {p1 : Nat} (hp : p1 ≤ 20) :
    sppN t p1 = sppN t' p1 := by
  have h0 : secondPolN t p1 0 = false := by simp [secondPolN]
  have h0' : secondPolN t' p1 0 = false := by simp [secondPolN]
  simp only [sppN, h0, h0', Bool.false_eq_true, if_false]
  simp only [Prod.mk.injEq]
  refine ⟨?_, ?_, ?_⟩ <;>
    exact sumUpTo_congr fun i h1 h2 => by
      rw [secondPolN_congr h hp h2, secondN_congr h hp h2 true,
        secondN_congr h hp h2 false]

theorem firstN_congr {sp sp' : Nat → ITri}
    (h : ∀ a, a ≤ 20 → sp a = sp' a)
    {s : Nat} (hs : s ≤ 20) (b : Bool) :
    firstN sp s b = firstN sp' s b := by
  cases b with
  | false => simp only [firstN, Bool.false_eq_true, if_false, h s hs]
  | true =>
      have harg : ∀ ns : Nat, (if s + ns > 20 then 0 else s + ns) ≤ 20 := by
        intro ns; split <;> omega
      simp only [firstN, if_true]
      simp only [Prod.mk.injEq]
      refine ⟨?_, ?_, ?_⟩ <;>
        exact sumUpTo_congr fun i _ _ => by rw [h _ (harg i)]

theorem firstPolN_congr {sp sp' : Nat → ITri}
    (h : ∀ a, a ≤ 20 → sp a = sp' a) {s : Nat} (hs : s ≤ 20) :
    firstPolN sp s = firstPolN sp' s := by
  by_cases hs0 : s = 0
  · simp [firstPolN, hs0]
  · simp only [firstPolN, if_neg hs0,
      firstN_congr h hs true, firstN_congr h hs false]

theorem finalN_congr {sp sp' : Nat → ITri}
    (h : ∀ a, a ≤ 20 → sp a = sp' a) :
    finalN sp = finalN sp' := by
  have h0 : firstPolN sp 0 = false := by simp [firstPolN]
  have h0' : firstPolN sp' 0 = false := by simp [firstPolN]
  simp only [finalN, h0, h0', Bool.false_eq_true, if_false]
  simp only [Prod.mk.injEq]
  refine ⟨?_, ?_, ?_⟩ <;>
    exact sumUpTo_congr fun i h1 h2 => by
      rw [firstPolN_congr h h2, firstN_congr h h2 true, firstN_congr h h2 false]

/-! ## Literal values of the integer-model tables

The following data lists were obtained by evaluating the integer model
and are certified against it by the kernel (`decide`) below. -/

theorem tppN_row0 : ∀ p2 : Fin 21, tppN 0 p2.1 = tppNL 0 p2.1 := by decide

theorem tppN_row1 : ∀ p2 : Fin 21, tppN 1 p2.1 = tppNL 1 p2.1 := by decide

theorem tppN_row2 : ∀ p2 : Fin 21, tppN 2 p2.1 = tppNL 2 p2.1 := by decide

theorem tppN_row3 : ∀ p2 : Fin 21, tppN 3 p2.1 = tppNL 3 p2.1 := by decide

theorem tppN_row4 : ∀ p2 : Fin 21, tppN 4 p2.1 = tppNL 4 p2.1 := by decide

theorem tppN_row5 : ∀ p2 : Fin 21, tppN 5 p2.1 = tppNL 5 p2.1 := by decide

theorem tppN_row6 : ∀ p2 : Fin 21, tppN 6 p2.1 = tppNL 6 p2.1 := by decide

theorem tppN_row7 : ∀ p2 : Fin 21, tppN 7 p2.1 = tppNL 7 p2.1 := by decide

theorem tppN_row8 : ∀ p2 : Fin 21, tppN 8 p2.1 = tppNL 8 p2.1 := by decide

theorem tppN_row9 : ∀ p2 : Fin 21, tppN 9 p2.1 = tppNL 9 p2.1 := by decide

theorem tppN_row10 : ∀ p2 : Fin 21, tppN 10 p2.1 = tppNL 10 p2.1 := by decide

theorem tppN_row11 : ∀ p2 : Fin 21, tppN 11 p2.1 = tppNL 11 p2.1 := by decide

theorem tppN_row12 : ∀ p2 : Fin 21, tppN 12 p2.1 = tppNL 12 p2.1 := by decide

theorem tppN_row13 : ∀ p2 : Fin 21, tppN 13 p2.1 = tppNL 13 p2.1 := by decide

theorem tppN_row14 : ∀ p2 : Fin 21, tppN 14 p2.1 = tppNL 14 p2.1 := by decide

theorem tppN_row15 : ∀ p2 : Fin 21, tppN 15 p2.1 = tppNL 15 p2.1 := by decide

theorem tppN_row16 : ∀ p2 : Fin 21, tppN 16 p2.1 = tppNL 16 p2.1 := by decide

theorem tppN_row17 : ∀ p2 : Fin 21, tppN 17 p2.1 = tppNL 17 p2.1 := by decide

theorem tppN_row18 : ∀ p2 : Fin 21, tppN 18 p2.1 = tppNL 18 p2.1 := by decide

theorem tppN_row19 : ∀ p2 : Fin 21, tppN 19 p2.1 = tppNL 19 p2.1 := by decide

theorem tppN_row20 : ∀ p2 : Fin 21, tppN 20 p2.1 = tppNL 20 p2.1 := by decide

theorem tppN_lit : ∀ a c, a ≤ 20 → c ≤ 20 → tppN a c = tppNL a c := by
  intro a c ha hc
  interval_cases a
  · exact tppN_row0 ⟨c, by omega⟩
  · exact tppN_row1 ⟨c, by omega⟩
  · exact tppN_row2 ⟨c, by omega⟩
  · exact tppN_row3 ⟨c, by omega⟩
  · exact tppN_row4 ⟨c, by omega⟩
  · exact tppN_row5 ⟨c, by omega⟩
  · exact tppN_row6 ⟨c, by omega⟩
  · exact tppN_row7 ⟨c, by omega⟩
  · exact tppN_row8 ⟨c, by omega⟩
  · exact tppN_row9 ⟨c, by omega⟩
  · exact tppN_row10 ⟨c, by omega⟩
  · exact tppN_row11 ⟨c, by omega⟩
  · exact tppN_row12 ⟨c, by omega⟩
  · exact tppN_row13 ⟨c, by omega⟩
  · exact tppN_row14 ⟨c, by omega⟩
  · exact tppN_row15 ⟨c, by omega⟩
  · exact tppN_row16 ⟨c, by omega⟩
  · exact tppN_row17 ⟨c, by omega⟩
  · exact tppN_row18 ⟨c, by omega⟩
  · exact tppN_row19 ⟨c, by omega⟩
  · exact tppN_row20 ⟨c, by omega⟩

theorem sppN_lit_aux : ∀ p1 : Fin 21, sppN tppNL p1.1 = sppNL p1.1 := by decide

theorem sppN_lit : ∀ p1, p1 ≤ 20 → sppN tppN p1 = sppNL p1 := fun p1 hp =>
  (sppN_congr tppN_lit hp).trans (sppN_lit_aux ⟨p1, by omega⟩)

theorem firstN_lit_aux : ∀ s : Fin 21, ∀ b, firstN sppNL s.1 b = firstNL s.1 b := by
  decide

theorem firstN_lit : ∀ s, s ≤ 20 → ∀ b, firstN (sppN tppN) s b = firstNL s b :=
  fun s hs b => (firstN_congr sppN_lit hs b).trans (firstN_lit_aux ⟨s, by omega⟩ b)

theorem finalN_lit_aux : finalN sppNL = (95505056, 669371588, 771123356) := by decide

theorem finalN_val : finalN (sppN tppN) = (95505056, 669371588, 771123356) :=
  (finalN_congr sppN_lit).trans finalN_lit_aux

theorem spinoff_second_corr (p1 s : Nat) (b : Bool) :
    spinoff_second_probability p1 s b = ((spinoff_secondN p1 s b : Int) : ℚ) / 40 := by
  have hstop : ∀ t, spinoff_stop_w p1 t = ((spinoff_stopN p1 t : Int) : ℚ) / 2 := by
    intro t; simp only [spinoff_stop_w, spinoff_stopN]; split_ifs <;> norm_num
  cases b with
  | false =>
      simp only [spinoff_second_probability, Bool.false_eq_true, if_false,
        spinoff_secondN, hstop]
      push_cast
      ring
  | true =>
      simp only [spinoff_second_probability, spinoff_secondN, if_true]
      rw [sumUpTo_congr (g := fun ns =>
          ((spinoff_stopN p1 (if s + ns > 20 then 0 else s + ns) : Int) : ℚ) / 40)
          fun i _ _ => by rw [hstop]; ring, sumUpTo_intCast_div]

theorem spinoff_secondPol_corr (p1 s : Nat) :
    spinoff_second_optimal_policy p1 s = if spinoff_secondPolN p1 s then 1 else 0 := by
  by_cases hs : s = 0
  · subst hs; simp [spinoff_second_optimal_policy, spinoff_secondPolN]
  · simp only [spinoff_second_optimal_policy, spinoff_secondPolN, if_neg hs]
    refine if_congr ?_ rfl rfl
    rw [spinoff_second_corr p1 s true, spinoff_second_corr p1 s false]
    rw [gt_iff_lt, div_lt_div_iff_of_pos_right (by norm_num : (0:ℚ) < 40), Int.cast_lt]
    exact decide_eq_true_iff.symm

theorem spinoff_spp_corr (p1 : Nat) :
    spinoff_second_policy_probability p1 = ((spinoff_sppN p1 : Int) : ℚ) / 800 := by
  have hpol0 : spinoff_second_optimal_policy p1 0 = 0 := by
    simp [spinoff_second_optimal_policy]
  have hpolN0 : spinoff_secondPolN p1 0 = false := by simp [spinoff_secondPolN]
  have hterm : ∀ s, 1/20 * (spinoff_second_optimal_policy p1 s *
        spinoff_second_probability p1 s true
      + (1 - spinoff_second_optimal_policy p1 s) *
        spinoff_second_probability p1 s false) =
      (((if spinoff_secondPolN p1 s then spinoff_secondN p1 s true
          else spinoff_secondN p1 s false) : Int) : ℚ) / 800 := by
    intro s
    rw [spinoff_secondPol_corr, spinoff_second_corr p1 s true,
      spinoff_second_corr p1 s false]
    by_cases h : spinoff_secondPolN p1 s <;> simp only [h, if_true, if_false] <;>
      (push_cast; ring)
  simp only [spinoff_second_policy_probability, spinoff_sppN, hpolN0,
    Bool.false_eq_true, if_false,
    if_neg (by rw [hpol0]; norm_num : ¬ spinoff_second_optimal_policy p1 0 = 1)]
  rw [sumUpTo_congr fun i _ _ => hterm i, sumUpTo_intCast_div]

theorem spinoff_first_corr (s : Nat) (b : Bool) :
    spinoff_first_probability s b =
      (((spinoff_firstN spinoff_sppN s b).1 : ℚ) / 16000,
       ((spinoff_firstN spinoff_sppN s b).2 : ℚ) / 16000) := by
  have h1 : ∀ t, (1:ℚ)/20 * (1 - spinoff_second_policy_probability t) =
      ((800 - spinoff_sppN t : Int) : ℚ) / 16000 := by
    intro t; rw [spinoff_spp_corr]; push_cast; ring
  have h2 : ∀ t, (1:ℚ)/20 * spinoff_second_policy_probability t =
      ((spinoff_sppN t : Int) : ℚ) / 16000 := by
    intro t; rw [spinoff_spp_corr]; push_cast; ring
  cases b with
  | false =>
      simp only [spinoff_first_probability, Bool.false_eq_true, if_false,
        spinoff_firstN, spinoff_spp_corr]
      simp only [Prod.mk.injEq]
      refine ⟨?_, ?_⟩ <;> (push_cast; ring)
  | true =>
      simp only [spinoff_first_probability, spinoff_firstN, if_true]
      simp only [Prod.mk.injEq]
      refine ⟨?_, ?_⟩
      · rw [sumUpTo_congr fun i _ _ => h1 _, sumUpTo_intCast_div]
      · rw [sumUpTo_congr fun i _ _ => h2 _, sumUpTo_intCast_div]

theorem spinoff_firstPol_corr (s : Nat) :
    spinoff_first_optimal_policy s =
      if spinoff_firstPolN spinoff_sppN s then 1 else 0 := by
  by_cases hs : s = 0
  · subst hs; simp [spinoff_first_optimal_policy, spinoff_firstPolN]
  · simp only [spinoff_first_optimal_policy, spinoff_firstPolN, if_neg hs]
    refine if_congr ?_ rfl rfl
    rw [spinoff_first_corr s true, spinoff_first_corr s false]
    rw [gt_iff_lt, div_lt_div_iff_of_pos_right (by norm_num : (0:ℚ) < 16000), Int.cast_lt]
    exact decide_eq_true_iff.symm

theorem spinoff_outcome_corr :
    spinoff_outcome =
      (((spinoff_outcomeN spinoff_sppN).1 : ℚ) / 320000,
       ((spinoff_outcomeN spinoff_sppN).2 : ℚ) / 320000) := by
  have hpol0 : spinoff_first_optimal_policy 0 = 0 := by
    simp [spinoff_first_optimal_policy]
  have hpolN0 : spinoff_firstPolN spinoff_sppN 0 = false := by simp [spinoff_firstPolN]
  have hterm1 : ∀ s, 1/20 * (spinoff_first_optimal_policy s *
        (spinoff_first_probability s true).1
      + (1 - spinoff_first_optimal_policy s) * (spinoff_first_probability s false).1) =
      (((if spinoff_firstPolN spinoff_sppN s then (spinoff_firstN spinoff_sppN s true).1
          else (spinoff_firstN spinoff_sppN s false).1) : Int) : ℚ) / 320000 := by
    intro s
    rw [spinoff_firstPol_corr, spinoff_first_corr s true, spinoff_first_corr s false]
    by_cases h : spinoff_firstPolN spinoff_sppN s <;> simp only [h, if_true, if_false] <;>
      (push_cast; ring)
  have hterm2 : ∀ s, 1/20 * (spinoff_first_optimal_policy s *
        (spinoff_first_probability s true).2
      + (1 - spinoff_first_optimal_policy s) * (spinoff_first_probability s false).2) =
      (((if spinoff_firstPolN spinoff_sppN s then (spinoff_firstN spinoff_sppN s true).2
          else (spinoff_firstN spinoff_sppN s false).2) : Int) : ℚ) / 320000 := by
    intro s
    rw [spinoff_firstPol_corr, spinoff_first_corr s true, spinoff_first_corr s false]
    by_cases h : spinoff_firstPolN spinoff_sppN s <;> simp only [h, if_true, if_false] <;>
      (push_cast; ring)
  simp only [spinoff_outcome, spinoff_outcomeN, hpolN0, Bool.false_eq_true, if_false,
    if_neg (by rw [hpol0]; norm_num : ¬ spinoff_first_optimal_policy 0 = 1)]
  simp only [Prod.mk.injEq]
  refine ⟨?_, ?_⟩
  · rw [sumUpTo_congr fun i _ _ => hterm1 i, sumUpTo_intCast_div]
  · rw [sumUpTo_congr fun i _ _ => hterm2 i, sumUpTo_intCast_div]

theorem spinoff_sppN_lit_aux : ∀ p1 : Fin 21, spinoff_sppN p1.1 = c2NL p1.1 := by
  decide

theorem spinoff_sppN_lit : ∀ a, a ≤ 20 → spinoff_sppN a = c2NL a := fun a ha =>
  spinoff_sppN_lit_aux ⟨a, by omega⟩

theorem spinoff_firstN_congr {c2 c2' : Nat → Int}
    (h : ∀ a, a ≤ 20 → c2 a = c2' a) {s : Nat} (hs : s ≤ 20) (b : Bool) :
    spinoff_firstN c2 s b = spinoff_firstN c2' s b := by
  cases b with
  | false => simp only [spinoff_firstN, Bool.false_eq_true, if_false, h s hs]
  | true =>
      have harg : ∀ ns : Nat, (if s + ns > 20 then 0 else s + ns) ≤ 20 := by
        intro ns; split <;> omega
      simp only [spinoff_firstN, if_true]
      simp only [Prod.mk.injEq]
      refine ⟨?_, ?_⟩ <;>
        exact sumUpTo_congr fun i _ _ => by rw [h _ (harg i)]

theorem spinoff_firstPolN_congr {c2 c2' : Nat → Int}
    (h : ∀ a, a ≤ 20 → c2 a = c2' a) {s : Nat} (hs : s ≤ 20) :
    spinoff_firstPolN c2 s = spinoff_firstPolN c2' s := by
  by_cases hs0 : s = 0
  · simp [spinoff_firstPolN, hs0]
  · simp only [spinoff_firstPolN, if_neg hs0,
      spinoff_firstN_congr h hs true, spinoff_firstN_congr h hs false]

theorem spinoff_outcomeN_congr {c2 c2' : Nat → Int}
    (h : ∀ a, a ≤ 20 → c2 a = c2' a) :
    spinoff_outcomeN c2 = spinoff_outcomeN c2' := by
  have h0 : spinoff_firstPolN c2 0 = false := by simp [spinoff_firstPolN]
  have h0' : spinoff_firstPolN c2' 0 = false := by simp [spinoff_firstPolN]
  simp only [spinoff_outcomeN, h0, h0', Bool.false_eq_true, if_false]
  simp only [Prod.mk.injEq]
  refine ⟨?_, ?_⟩ <;>
    exact sumUpTo_congr fun i h1 h2 => by
      rw [spinoff_firstPolN_congr h h2, spinoff_firstN_congr h h2 true,
        spinoff_firstN_congr h h2 false]

theorem spinoff_outcomeN_lit_aux : spinoff_outcomeN c2NL = (146445, 173555) := by
  decide

theorem spinoff_outcomeN_val : spinoff_outcomeN spinoff_sppN = (146445, 173555) :=
  (spinoff_outcomeN_congr spinoff_sppN_lit).trans spinoff_outcomeN_lit_aux

theorem spinoff_outcome_val : spinoff_outcome = (146445/320000, 173555/320000) := by
  rw [spinoff_outcome_corr, spinoff_outcomeN_val]; norm_num

/-! ## Sum-to-one invariant (the condition of every C++ `assert`) -/

theorem third_total (p1 p2 s : Nat) (b : Bool) :
    (third_player_probability p1 p2 s b).total = 1 := by
  simp only [third_player_probability, Tri.total]
  split_ifs <;> ring

theorem collapse3_total (pol : Nat → Nat → Nat → ℚ) (p1 p2 : Nat) :
    (third_player_policy_probability pol p1 p2).total = 1 := by
  by_cases h : pol p1 p2 0 = 1
  · simp only [third_player_policy_probability, if_pos h]
    exact third_total p1 p2 0 false
  · simp only [third_player_policy_probability, if_neg h, Tri.total]
    rw [sumUpTo_add, sumUpTo_add,
      sumUpTo_congr (g := fun _ => (1:ℚ)/20) ?_, sumUpTo_const]
    · norm_num
    · intro i _ _
      have h3 := third_total p1 p2 i true
      have h4 := third_total p1 p2 i false
      simp only [Tri.total] at h3 h4
      show 1/20 * (pol p1 p2 i * (third_player_probability p1 p2 i true).1
          + (1 - pol p1 p2 i) * (third_player_probability p1 p2 i false).1)
        + 1/20 * (pol p1 p2 i * (third_player_probability p1 p2 i true).2.1
          + (1 - pol p1 p2 i) * (third_player_probability p1 p2 i false).2.1)
        + 1/20 * (pol p1 p2 i * (third_player_probability p1 p2 i true).2.2
          + (1 - pol p1 p2 i) * (third_player_probability p1 p2 i false).2.2) = 1/20
      linear_combination (pol p1 p2 i / 20) * h3 + ((1 - pol p1 p2 i) / 20) * h4

theorem second_total (tpp : Nat → Nat → Tri) (h : ∀ a c, (tpp a c).total = 1)
    (p1 s : Nat) (b : Bool) : (second_player_probability tpp p1 s b).total = 1 := by
  cases b with
  | false => simpa only [second_player_probability, Bool.false_eq_true, if_false] using h p1 s
  | true =>
      simp only [second_player_probability, if_true, Tri.total]
      rw [sumUpTo_add, sumUpTo_add,
        sumUpTo_congr (g := fun _ => (1:ℚ)/20) ?_, sumUpTo_const]
      · norm_num
      · intro i _ _
        have h1 := h p1 (if s + i > 20 then 0 else s + i)
        simp only [Tri.total] at h1
        show 1/20 * (tpp p1 (if s + i > 20 then 0 else s + i)).1
          + 1/20 * (tpp p1 (if s + i > 20 then 0 else s + i)).2.1
          + 1/20 * (tpp p1 (if s + i > 20 then 0 else s + i)).2.2 = 1/20
        linear_combination (1/20 : ℚ) * h1

theorem collapse2_total (pol : Nat → Nat → ℚ) (sprob : Nat → Nat → Bool → Tri)
    (h : ∀ a c b, (sprob a c b).total = 1) (p1 : Nat) :
    (second_player_policy_probability pol sprob p1).total = 1 := by
  by_cases hp : pol p1 0 = 1
  · simp only [second_player_policy_probability, if_pos hp]
    exact h p1 0 false
  · simp only [second_player_policy_probability, if_neg hp, Tri.total]
    rw [sumUpTo_add, sumUpTo_add,
      sumUpTo_congr (g := fun _ => (1:ℚ)/20) ?_, sumUpTo_const]
    · norm_num
    · intro i _ _
      have h3 := h p1 i true
      have h4 := h p1 i false
      simp only [Tri.total] at h3 h4
      show 1/20 * (pol p1 i * (sprob p1 i true).1 + (1 - pol p1 i) * (sprob p1 i false).1)
        + 1/20 * (pol p1 i * (sprob p1 i true).2.1 + (1 - pol p1 i) * (sprob p1 i false).2.1)
        + 1/20 * (pol p1 i * (sprob p1 i true).2.2 + (1 - pol p1 i) * (sprob p1 i false).2.2)
        = 1/20
      linear_combination (pol p1 i / 20) * h3 + ((1 - pol p1 i) / 20) * h4

theorem first_total (spp : Nat → Tri) (h : ∀ a, (spp a).total = 1)
    (s : Nat) (b : Bool) : (first_player_probability spp s b).total = 1 := by
  cases b with
  | false => simpa only [first_player_probability, Bool.false_eq_true, if_false] using h s
  | true =>
      simp only [first_player_probability, if_true, Tri.total]
      rw [sumUpTo_add, sumUpTo_add,
        sumUpTo_congr (g := fun _ => (1:ℚ)/20) ?_, sumUpTo_const]
      · norm_num
      · intro i _ _
        have h1 := h (if s + i > 20 then 0 else s + i)
        simp only [Tri.total] at h1
        show 1/20 * (spp (if s + i > 20 then 0 else s + i)).1
          + 1/20 * (spp (if s + i > 20 then 0 else s + i)).2.1
          + 1/20 * (spp (if s + i > 20 then 0 else s + i)).2.2 = 1/20
        linear_combination (1/20 : ℚ) * h1

theorem collapse1_total (pol : Nat → ℚ) (fprob : Nat → Bool → Tri)
    (h : ∀ c b, (fprob c b).total = 1) :
    (first_player_policy_probability pol fprob).total = 1 := by
  by_cases hp : pol 0 = 1
  · simp only [first_player_policy_probability, if_pos hp]
    exact h 0 false
  · simp only [first_player_policy_probability, if_neg hp, Tri.total]
    rw [sumUpTo_add, sumUpTo_add,
      sumUpTo_congr (g := fun _ => (1:ℚ)/20) ?_, sumUpTo_const]
    · norm_num
    · intro i _ _
      have h3 := h i true
      have h4 := h i false
      simp only [Tri.total] at h3 h4
      show 1/20 * (pol i * (fprob i true).1 + (1 - pol i) * (fprob i false).1)
        + 1/20 * (pol i * (fprob i true).2.1 + (1 - pol i) * (fprob i false).2.1)
        + 1/20 * (pol i * (fprob i true).2.2 + (1 - pol i) * (fprob i false).2.2) = 1/20
      linear_combination (pol i / 20) * h3 + ((1 - pol i) / 20) * h4

/-- C2: for every state in every stage's table of the solver's run — the
raw and the policy-collapsed tables of all three stages, and the final
distribution — the three components of the computed outcome distribution
sum to exactly the rational 1.  These sums are exactly the conditions
tested by the C++ `assert` calls of `initialize_dp_tables`, so the fatal
assertions never fire, and the computation contains no renormalization
step (each cell is stored exactly as computed). -/
theorem C2_outcome_distribution_sums_to_one :
    (∀ p1 p2 s : Nat, ∀ b : Bool, (third_player_probability p1 p2 s b).total = 1) ∧
    (∀ p1 p2 : Nat, (tppOpt p1 p2).total = 1) ∧
    (∀ p1 s : Nat, ∀ b : Bool, (sprobOpt p1 s b).total = 1) ∧
    (∀ p1 : Nat, (sppOpt p1).total = 1) ∧
    (∀ s : Nat, ∀ b : Bool, (fprobOpt s b).total = 1) ∧
    finalOpt.total = 1 := by
  have h2 : ∀ p1 p2 : Nat, (tppOpt p1 p2).total = 1 := fun p1 p2 =>
    collapse3_total third_player_optimal_policy p1 p2
  have h3 : ∀ p1 s : Nat, ∀ b : Bool, (sprobOpt p1 s b).total = 1 := fun p1 s b =>
    second_total tppOpt h2 p1 s b
  have h4 : ∀ p1 : Nat, (sppOpt p1).total = 1 := fun p1 =>
    collapse2_total second_player_optimal_policy sprobOpt (fun a c b => h3 a c b) p1
  have h5 : ∀ s : Nat, ∀ b : Bool, (fprobOpt s b).total = 1 := fun s b =>
    first_total sppOpt h4 s b
  exact ⟨third_total, h2, h3, h4, h5,
    collapse1_total first_player_optimal_policy fprobOpt (fun c b => h5 c b)⟩

/-- C5: in the finest stage, whenever the acting participant's final
total equals both prior totals and no spin-again decision remains
(stop branch), the outcome distribution is exactly (1/3, 1/3, 1/3). -/
theorem C5_symmetric_three_way_tie (p1 p2 s : Nat) (h1 : s = p1) (h2 : s = p2) :
    third_player_probability p1 p2 s false = (1/3, 1/3, 1/3) := by
  subst h1
  subst h2
  simp only [third_player_probability, third_stop_w, Bool.false_eq_true, if_false]
  rw [if_neg (by omega : ¬(s > s ∧ s > s))]
  norm_num

theorem C5_witness : third_player_probability 5 5 5 false = (1/3, 1/3, 1/3) :=
  C5_symmetric_three_way_tie 5 5 5 rfl rfl

/-- C1 counterexample: at the finest-stage stop state `(p1, p2, spin) =
(10, 5, 10)` the acting participant ties exactly one earlier participant
(player 1).  The code assigns each tied participant exactly 1/2, but the
two-participant replay sub-game solved with the same stage-solver
machinery gives the first mover 146445/320000 and the second mover
173555/320000 — neither is 1/2, so the cell does not hold the sub-game's
win rates. -/
theorem C1_counterexample :
    (third_player_probability 10 5 10 false).1 = 1/2 ∧
    (third_player_probability 10 5 10 false).2.2 = 1/2 ∧
    spinoff_outcome.1 ≠ 1/2 ∧ spinoff_outcome.2 ≠ 1/2 := by
  have hcell : third_probN 10 5 10 false = (240, 0, 240) := by decide
  refine ⟨?_, ?_, ?_, ?_⟩
  · rw [third_corr, hcell]; norm_num
  · rw [third_corr, hcell]; norm_num
  · rw [spinoff_outcome_val]; norm_num
  · rw [spinoff_outcome_val]; norm_num

/-- C1 amended: for every finest-stage stop state where the acting
participant's final total equals exactly one prior total (a two-way
tie), the outcome distribution gives each of the two tied participants
exactly 1/2 and the third participant 0 — a fixed equal split, not the
solved two-participant sub-game's first/second-mover win rates. -/
theorem C1_two_way_tie_equal_split (p1 p2 s : Nat) (hmax : s = max p1 p2)
    (hne : p1 ≠ p2) :
    third_player_probability p1 p2 s false =
      if p2 < p1 then (1/2, 0, 1/2) else (0, 1/2, 1/2) := by
  have hw : third_stop_w p1 p2 s = 1/2 := by
    simp only [third_stop_w]
    rw [if_neg, if_neg, if_pos hmax]
    · rintro ⟨e1, e2⟩
      rcases Nat.le_total p1 p2 with h | h
      · rw [Nat.max_eq_right h] at hmax; omega
      · rw [Nat.max_eq_left h] at hmax; omega
    · rintro ⟨g1, g2⟩
      rcases Nat.le_total p1 p2 with h | h
      · rw [Nat.max_eq_right h] at hmax; omega
      · rw [Nat.max_eq_left h] at hmax; omega
  simp only [third_player_probability, Bool.false_eq_true, if_false, hw]
  rw [if_neg hne]
  by_cases hgt : p1 > p2
  · rw [if_pos hgt, if_pos hgt]; norm_num
  · rw [if_neg hgt, if_neg (by omega : ¬ p2 < p1)]; norm_num

theorem C1_two_way_tie_witness :
    third_player_probability 10 5 10 false = (1/2, 0, 1/2) := by
  rw [C1_two_way_tie_equal_split 10 5 10 (by norm_num) (by norm_num)]
  norm_num

/-- C9 counterexample: with a policy whose spin-0 weight is 1/2, the
stage-3 collapse of `dynamic_programming.cpp` does NOT equal the claimed
convex combination (weight times the no-play cell plus one minus the
weight times the first-spin integral): at `(p1, p2) = (0, 0)` the
collapsed third component is 1 while the combination's is 2/3. -/
theorem C9_counterexample :
    (third_player_policy_probability polHalf 0 0).2.2 ≠
      polHalf 0 0 0 * (third_player_probability 0 0 0 false).2.2 +
      (1 - polHalf 0 0 0) * (spinIntegral3 polHalf third_player_probability 0 0).2.2 := by
  with_unfolding_all decide

/-- C9 amended: in the simulator-variant solver the spin-0 policy value
is a state-dependent skip weight and every stage's collapsed entry is
the convex combination of the no-play cell and the first-spin integral,
for every policy weight; in `dynamic_programming.cpp` the spin-0 value
instead acts as a binary switch: a value equal to 1 yields the no-play
cell, any other value yields the pure first-spin integral. -/
theorem C9_policy_collapse_shapes :
    (∀ (pol : Nat → Nat → Nat → ℚ) (prob : Nat → Nat → Nat → Bool → Tri) (p1 p2 : Nat),
      third_player_policy_probability_sim pol prob p1 p2 =
        pol p1 p2 0 • prob p1 p2 0 false +
          (1 - pol p1 p2 0) • spinIntegral3 pol prob p1 p2) ∧
    (∀ (pol : Nat → Nat → ℚ) (prob : Nat → Nat → Bool → Tri) (p1 : Nat),
      second_player_policy_probability_sim pol prob p1 =
        pol p1 0 • prob p1 0 false + (1 - pol p1 0) • spinIntegral2 pol prob p1) ∧
    (∀ (pol : Nat → ℚ) (prob : Nat → Bool → Tri),
      first_player_policy_probability_sim pol prob =
        pol 0 • prob 0 false + (1 - pol 0) • spinIntegral1 pol prob) ∧
    (∀ (pol : Nat → Nat → Nat → ℚ) (p1 p2 : Nat), pol p1 p2 0 = 1 →
      third_player_policy_probability pol p1 p2 = third_player_probability p1 p2 0 false) ∧
    (∀ (pol : Nat → Nat → Nat → ℚ) (p1 p2 : Nat), pol p1 p2 0 ≠ 1 →
      third_player_policy_probability pol p1 p2 =
        spinIntegral3 pol third_player_probability p1 p2) ∧
    (∀ (pol : Nat → Nat → ℚ) (sprob : Nat → Nat → Bool → Tri) (p1 : Nat), pol p1 0 = 1 →
      second_player_policy_probability pol sprob p1 = sprob p1 0 false) ∧
    (∀ (pol : Nat → Nat → ℚ) (sprob : Nat → Nat → Bool → Tri) (p1 : Nat), pol p1 0 ≠ 1 →
      second_player_policy_probability pol sprob p1 = spinIntegral2 pol sprob p1) ∧
    (∀ (pol : Nat → ℚ) (fprob : Nat → Bool → Tri), pol 0 = 1 →
      first_player_policy_probability pol fprob = fprob 0 false) ∧
    (∀ (pol : Nat → ℚ) (fprob : Nat → Bool → Tri), pol 0 ≠ 1 →
      first_player_policy_probability pol fprob = spinIntegral1 pol fprob) := by
  refine ⟨?_, ?_, ?_, ?_, ?_, ?_, ?_, ?_, ?_⟩
  · intro pol prob p1 p2
    simp only [third_player_policy_probability_sim, Prod.ext_iff, Prod.fst_add, Prod.snd_add,
      Prod.smul_fst, Prod.smul_snd, smul_eq_mul]
    refine ⟨?_, ?_, ?_⟩ <;> first | rfl | trivial
  · intro pol prob p1
    simp only [second_player_policy_probability_sim, Prod.ext_iff, Prod.fst_add, Prod.snd_add,
      Prod.smul_fst, Prod.smul_snd, smul_eq_mul]
    refine ⟨?_, ?_, ?_⟩ <;> first | rfl | trivial
  · intro pol prob
    simp only [first_player_policy_probability_sim, Prod.ext_iff, Prod.fst_add, Prod.snd_add,
      Prod.smul_fst, Prod.smul_snd, smul_eq_mul]
    refine ⟨?_, ?_, ?_⟩ <;> first | rfl | trivial
  · intro pol p1 p2 h
    simp only [third_player_policy_probability, if_pos h]
  · intro pol p1 p2 h
    simp only [third_player_policy_probability, if_neg h, spinIntegral3]
  · intro pol sprob p1 h
    simp only [second_player_policy_probability, if_pos h]
  · intro pol sprob p1 h
    simp only [second_player_policy_probability, if_neg h, spinIntegral2]
  · intro pol fprob h
    simp only [first_player_policy_probability, if_pos h]
  · intro pol fprob h
    simp only [first_player_policy_probability, if_neg h, spinIntegral1]

theorem C9_policy_collapse_shapes_witness :
    third_player_policy_probability (fun _ _ _ => (1:ℚ)) 3 4 =
      third_player_probability 3 4 0 false ∧
    third_player_policy_probability (fun _ _ _ => (0:ℚ)) 3 4 =
      spinIntegral3 (fun _ _ _ => (0:ℚ)) third_player_probability 3 4 ∧
    second_player_policy_probability (fun _ _ => (1:ℚ)) sprobOpt 3 = sprobOpt 3 0 false ∧
    second_player_policy_probability (fun _ _ => (0:ℚ)) sprobOpt 3 =
      spinIntegral2 (fun _ _ => (0:ℚ)) sprobOpt 3 ∧
    first_player_policy_probability (fun _ => (1:ℚ)) fprobOpt = fprobOpt 0 false ∧
    first_player_policy_probability (fun _ => (0:ℚ)) fprobOpt =
      spinIntegral1 (fun _ => (0:ℚ)) fprobOpt :=
  ⟨C9_policy_collapse_shapes.2.2.2.1 _ 3 4 rfl,
   C9_policy_collapse_shapes.2.2.2.2.1 _ 3 4 (by norm_num),
   C9_policy_collapse_shapes.2.2.2.2.2.1 _ _ 3 rfl,
   C9_policy_collapse_shapes.2.2.2.2.2.2.1 _ _ 3 (by norm_num),
   C9_policy_collapse_shapes.2.2.2.2.2.2.2.1 _ _ rfl,
   C9_policy_collapse_shapes.2.2.2.2.2.2.2.2 _ _ (by norm_num)⟩

/-- C4 failing state: at first-spin total 20 the first player's
as-coded policy decides to spin again (a guaranteed bust), because it
compares component `[1]` — player 2's win probabilities (which favor the
spin) — although player 1's own component `[0]` is 0 when spinning and
69555360/76800000 when stopping.  The claimed rule "spin iff own win
probability when spinning strictly exceeds own win probability when
stopping" would decide to stop. -/
theorem C4_first_player_policy_compares_wrong_component :
    first_player_optimal_policy 20 = 1 ∧
    (fprobOpt 20 true).1 < (fprobOpt 20 false).1 ∧
    (fprobOpt 20 true).2.1 > (fprobOpt 20 false).2.1 := by
  have hT := firstN_lit 20 (by norm_num) true
  have hF := firstN_lit 20 (by norm_num) false
  have hTv : firstNL 20 true = (0, 35146800, 41653200) := by decide
  have hFv : firstNL 20 false = (69555360, 3622320, 3622320) := by decide
  refine ⟨?_, ?_, ?_⟩
  · rw [first_pol_corr]
    have hpol : firstPolN (sppN tppN) 20 = true := by
      rw [firstPolN_congr sppN_lit (by norm_num : (20:Nat) ≤ 20)]
      decide
    rw [hpol]
    norm_num
  · rw [fprob_corr, fprob_corr, hT, hF, hTv, hFv]
    norm_num
  · rw [fprob_corr, fprob_corr, hT, hF, hTv, hFv]
    norm_num

/-- C8: with wheel size 20 under the default rules and all three
participants following the derived policies, the final outcome
distribution computed by the solver is exactly
(2984533/48000000, 167342897/384000000, 192780839/384000000), and it
satisfies the strict later-mover advantage: the first player's win
probability is less than the second player's, which is less than the
third player's. -/
theorem C8_later_mover_advantage :
    finalOpt = (2984533/48000000, 167342897/384000000, 192780839/384000000) ∧
    finalOpt.1 < finalOpt.2.1 ∧ finalOpt.2.1 < finalOpt.2.2 := by
  have h : finalOpt = (2984533/48000000, 167342897/384000000, 192780839/384000000) := by
    rw [final_corr, finalN_val]; norm_num
  refine ⟨h, ?_, ?_⟩ <;> rw [h] <;> norm_num

theorem wrap64_eq_of_mem (x : Int) (h1 : -(2^63) ≤ x) (h2 : x < 2^63) :
    wrap64 x = x := by
  unfold wrap64
  rw [Int.emod_eq_of_lt (by omega) (by omega)]
  omega

/-- C3 counterexample: the `Fraction` integers are 64-bit, not
arbitrary-precision.  Multiplying 1/3037000507 by itself has the true
rational value 1/9223372037000250049, but the denominator product
overflows the signed 64-bit range, so the C++ multiplication silently
wraps and produces the wrong (negative) value -1/9223372036709301567. -/
theorem C3_counterexample :
    Fraction64.toRat ⟨1, 3037000507⟩ * Fraction64.toRat ⟨1, 3037000507⟩ =
      1 / 9223372079518257049 ∧
    Fraction64.mul ⟨1, 3037000507⟩ ⟨1, 3037000507⟩ =
      some ⟨-1, 9223371994191294567⟩ ∧
    (Fraction64.mul ⟨1, 3037000507⟩ ⟨1, 3037000507⟩).map Fraction64.toRat ≠
      some (1 / 9223372079518257049) := by
  have h2 : Fraction64.mul ⟨1, 3037000507⟩ ⟨1, 3037000507⟩ =
      some ⟨-1, 9223371994191294567⟩ := by decide
  refine ⟨?_, h2, ?_⟩
  · simp only [Fraction64.toRat]
    norm_num
  · rw [h2]
    rw [show Option.map Fraction64.toRat (some ⟨-1, 9223371994191294567⟩) =
      some (Fraction64.toRat ⟨-1, 9223371994191294567⟩) from rfl]
    simp only [Ne, Option.some.injEq, Fraction64.toRat]
    norm_num

/-- C3 amended: `Fraction` arithmetic is exact only while every
intermediate 64-bit product stays in range: whenever both denominators
are positive and the products of numerators and of denominators fit in
the signed 64-bit range, multiplication returns exactly the product of
the represented rationals. -/
theorem C3_mul_exact_in_range (a b : Fraction64) (ha : 0 < a.den) (hb : 0 < b.den)
    (hnum : (a.num * b.num).natAbs < 2^63) (hden : a.den * b.den < 2^63) :
    (Fraction64.mul a b).map Fraction64.toRat =
      some (Fraction64.toRat a * Fraction64.toRat b) := by
  have hdpos : 0 < a.den * b.den := mul_pos ha hb
  have hwd : wrap64 (a.den * b.den) = a.den * b.den :=
    wrap64_eq_of_mem _ (by omega) (by omega)
  have hwn : wrap64 (a.num * b.num) = a.num * b.num :=
    wrap64_eq_of_mem _ (by omega) (by omega)
  have hprod : Fraction64.toRat a * Fraction64.toRat b =
      ((a.num * b.num : Int) : ℚ) / ((a.den * b.den : Int) : ℚ) := by
    simp only [Fraction64.toRat]
    push_cast
    rw [div_mul_div_comm]
  simp only [Fraction64.mul, Fraction64.mk', hwd, hwn]
  rw [if_neg (by omega : ¬ a.den * b.den = 0)]
  by_cases h0 : a.num * b.num = 0
  · rw [if_pos h0]
    rw [show Option.map Fraction64.toRat (some ⟨0, 1⟩) =
      some (Fraction64.toRat ⟨0, 1⟩) from rfl]
    rw [hprod, h0]
    norm_num [Fraction64.toRat]
  · rw [if_neg h0]
    set n : Int := a.num * b.num with hn
    set d : Int := a.den * b.den with hd
    have hg : (0 : Int) < Int.gcd n d := by
      have := Int.gcd_eq_zero_iff (i := n) (j := d)
      omega
    obtain ⟨n0, hn0⟩ : ((Int.gcd n d : Int)) ∣ n := Int.gcd_dvd_left
    obtain ⟨d0, hd0⟩ : ((Int.gcd n d : Int)) ∣ d := Int.gcd_dvd_right
    have hgne : ((Int.gcd n d : Int)) ≠ 0 := by omega
    have htn : n.tdiv (Int.gcd n d) = n0 := by
      nth_rewrite 1 [hn0]
      exact Int.mul_tdiv_cancel_left _ hgne
    have htd : d.tdiv (Int.gcd n d) = d0 := by
      nth_rewrite 1 [hd0]
      exact Int.mul_tdiv_cancel_left _ hgne
    have hd0pos : 0 < d0 := by
      rcases lt_trichotomy d0 0 with h | h | h
      · nlinarith [hd0, hdpos, hg]
      · rw [h, mul_zero] at hd0; omega
      · exact h
    simp only [htn, htd]
    rw [if_neg (by omega : ¬ d0 < 0)]
    rw [show Option.map Fraction64.toRat (some ⟨n0, d0⟩) =
      some (Fraction64.toRat ⟨n0, d0⟩) from rfl]
    refine congrArg some ?_
    have hval : ((n0 : ℚ)) / (d0 : ℚ) = ((n : Int) : ℚ) / ((d : Int) : ℚ) := by
      have h1 : ((n : Int) : ℚ) = ((Int.gcd n d : Int) : ℚ) * ((n0 : Int) : ℚ) := by
        exact_mod_cast hn0
      have h2 : ((d : Int) : ℚ) = ((Int.gcd n d : Int) : ℚ) * ((d0 : Int) : ℚ) := by
        exact_mod_cast hd0
      rw [h1, h2, mul_div_mul_left]
      exact_mod_cast hgne
    show ((n0 : ℚ)) / (d0 : ℚ) = Fraction64.toRat a * Fraction64.toRat b
    rw [hval, hprod]

theorem C3_mul_exact_witness :
    (0 : Int) < (⟨3, 4⟩ : Fraction64).den ∧ (0 : Int) < (⟨5, 6⟩ : Fraction64).den ∧
    ((⟨3, 4⟩ : Fraction64).num * (⟨5, 6⟩ : Fraction64).num).natAbs < 2^63 ∧
    (⟨3, 4⟩ : Fraction64).den * (⟨5, 6⟩ : Fraction64).den < 2^63 ∧
    (Fraction64.mul ⟨3, 4⟩ ⟨5, 6⟩).map Fraction64.toRat =
      some (Fraction64.toRat ⟨3, 4⟩ * Fraction64.toRat ⟨5, 6⟩) :=
  ⟨by norm_num, by norm_num, by norm_num, by norm_num,
   C3_mul_exact_in_range ⟨3, 4⟩ ⟨5, 6⟩ (by norm_num) (by norm_num)
     (by norm_num) (by norm_num)⟩

theorem applyCmp_value (a : Assumption) (c : CmpEvent) : (applyCmp a c).value = a.value := by
  cases c <;> simp only [applyCmp, Assumption.gtF, Assumption.ltF, Assumption.geF,
    Assumption.leF] <;> split_ifs <;> rfl

theorem applyCmp_min_mono (a : Assumption) (c : CmpEvent) :
    a.min_bound ≤ (applyCmp a c).min_bound := by
  cases c <;> simp only [applyCmp, Assumption.gtF, Assumption.ltF, Assumption.geF,
    Assumption.leF] <;> split_ifs <;> simp [le_max_left]

theorem applyCmp_max_mono (a : Assumption) (c : CmpEvent) :
    (applyCmp a c).max_bound ≤ a.max_bound := by
  cases c <;> simp only [applyCmp, Assumption.gtF, Assumption.ltF, Assumption.geF,
    Assumption.leF] <;> split_ifs <;> simp [min_le_left]

/-- C6: each comparison taken in the "value exceeds threshold" direction
sets `min_bound` to `max min_bound threshold` (leaving `max_bound`
unchanged) and each comparison taken in the "value is below threshold"
direction sets `max_bound` to `min max_bound threshold` (leaving
`min_bound` unchanged); along any recorded sequence `min_bound` never
decreases and `max_bound` never increases; and two recorded comparisons
applied in either order produce the same final bounds. -/
theorem C6_bound_narrowing :
    (∀ (a : Assumption) (t : ℚ),
      ((a.gtF t).1 = true → (a.gtF t).2.min_bound = max a.min_bound t ∧
        (a.gtF t).2.max_bound = a.max_bound) ∧
      ((a.gtF t).1 = false → (a.gtF t).2.max_bound = min a.max_bound t ∧
        (a.gtF t).2.min_bound = a.min_bound) ∧
      ((a.ltF t).1 = true → (a.ltF t).2.max_bound = min a.max_bound t ∧
        (a.ltF t).2.min_bound = a.min_bound) ∧
      ((a.ltF t).1 = false → (a.ltF t).2.min_bound = max a.min_bound t ∧
        (a.ltF t).2.max_bound = a.max_bound)) ∧
    (∀ (a : Assumption) (cs : List CmpEvent),
      a.min_bound ≤ (applyCmps a cs).min_bound ∧
      (applyCmps a cs).max_bound ≤ a.max_bound) ∧
    (∀ (a : Assumption) (c1 c2 : CmpEvent),
      (applyCmp (applyCmp a c1) c2).min_bound = (applyCmp (applyCmp a c2) c1).min_bound ∧
      (applyCmp (applyCmp a c1) c2).max_bound = (applyCmp (applyCmp a c2) c1).max_bound) := by
  refine ⟨?_, ?_, ?_⟩
  · intro a t
    refine ⟨?_, ?_, ?_, ?_⟩ <;>
      (simp only [Assumption.gtF, Assumption.ltF] <;> split_ifs <;> simp)
  · intro a cs
    induction cs generalizing a with
    | nil => exact ⟨le_refl _, le_refl _⟩
    | cons c cs ih =>
        refine ⟨(applyCmp_min_mono a c).trans (ih (applyCmp a c)).1,
          ((ih (applyCmp a c)).2).trans (applyCmp_max_mono a c)⟩
  · intro a c1 c2
    have hv1 := applyCmp_value a c1
    have hv2 := applyCmp_value a c2
    cases c1 <;> cases c2 <;>
      simp only [applyCmp, Assumption.gtF, Assumption.ltF, Assumption.geF,
        Assumption.leF] at hv1 hv2 ⊢ <;>
      split_ifs at hv1 hv2 ⊢ <;>
      simp_all <;>
      first
        | rfl
        | exact sup_right_comm ..
        | exact inf_right_comm ..
        | (constructor <;> first | rfl | exact sup_right_comm .. | exact inf_right_comm ..)

theorem C6_bound_narrowing_witness :
    (Assumption.gtF ⟨1/2, 0, 1, "size2win2"⟩ (1/4)).2.min_bound = max 0 (1/4) ∧
    (Assumption.gtF ⟨1/2, 0, 1, "size2win2"⟩ (1/4)).2.max_bound = 1 ∧
    (Assumption.ltF ⟨1/2, 0, 1, "size2win2"⟩ (3/4)).2.max_bound = min 1 (3/4) ∧
    (Assumption.ltF ⟨1/2, 0, 1, "size2win2"⟩ (3/4)).2.min_bound = 0 :=
  ⟨((C6_bound_narrowing.1 ⟨1/2, 0, 1, "size2win2"⟩ (1/4)).1
      (by norm_num [Assumption.gtF])).1,
   ((C6_bound_narrowing.1 ⟨1/2, 0, 1, "size2win2"⟩ (1/4)).1
      (by norm_num [Assumption.gtF])).2,
   ((C6_bound_narrowing.1 ⟨1/2, 0, 1, "size2win2"⟩ (3/4)).2.2.1
      (by norm_num [Assumption.ltF])).1,
   ((C6_bound_narrowing.1 ⟨1/2, 0, 1, "size2win2"⟩ (3/4)).2.2.1
      (by norm_num [Assumption.ltF])).2⟩

/-- C7: `is_valid` returns true exactly when the true value lies in the
inclusive interval `[min_bound, max_bound]`; in particular, whenever the
interval is nonempty, a true value exactly equal to either bound
validates as true. -/
theorem C7_is_valid_inclusive (a : Assumption) (v : ℚ) :
    (a.is_valid v = true ↔ a.min_bound ≤ v ∧ v ≤ a.max_bound) ∧
    (a.min_bound ≤ a.max_bound →
      a.is_valid a.min_bound = true ∧ a.is_valid a.max_bound = true) := by
  constructor
  · simp [Assumption.is_valid]
  · intro h
    simp [Assumption.is_valid, h]

theorem C7_is_valid_inclusive_witness :
    Assumption.is_valid ⟨1/2, 1/4, 3/4, "size3win3"⟩ (1/4) = true ∧
    Assumption.is_valid ⟨1/2, 1/4, 3/4, "size3win3"⟩ (3/4) = true :=
  (C7_is_valid_inclusive ⟨1/2, 1/4, 3/4, "size3win3"⟩ 0).2 (by norm_num)

/-- C10: every relational operator of `Assumption` returns exactly the
comparison of the stored assumed value against the rational argument
(the friend forms are argument-swapped), never modifies the stored
value or the name, and narrows exactly one bound field: `min_bound`
(to `max min_bound f`) when the comparison resolves in the direction
"value exceeds f", `max_bound` (to `min max_bound f`) otherwise, the
other bound being left unchanged. -/
theorem C10_comparison_semantics_and_frame (a : Assumption) (f : ℚ) :
    ((a.gtF f).1 = decide (a.value > f) ∧ (a.ltF f).1 = decide (a.value < f) ∧
     (a.geF f).1 = decide (a.value ≥ f) ∧ (a.leF f).1 = decide (a.value ≤ f) ∧
     (Assumption.fGt f a).1 = decide (f > a.value) ∧
     (Assumption.fLt f a).1 = decide (f < a.value) ∧
     (Assumption.fGe f a).1 = decide (f ≥ a.value) ∧
     (Assumption.fLe f a).1 = decide (f ≤ a.value)) ∧
    ((a.gtF f).2.value = a.value ∧ (a.ltF f).2.value = a.value ∧
     (a.geF f).2.value = a.value ∧ (a.leF f).2.value = a.value ∧
     (a.gtF f).2.name = a.name ∧ (a.ltF f).2.name = a.name ∧
     (a.geF f).2.name = a.name ∧ (a.leF f).2.name = a.name) ∧
    (a.value > f → (a.gtF f).2.min_bound = max a.min_bound f ∧
      (a.gtF f).2.max_bound = a.max_bound) ∧
    (¬ a.value > f → (a.gtF f).2.max_bound = min a.max_bound f ∧
      (a.gtF f).2.min_bound = a.min_bound) ∧
    (a.value < f → (a.ltF f).2.max_bound = min a.max_bound f ∧
      (a.ltF f).2.min_bound = a.min_bound) ∧
    (¬ a.value < f → (a.ltF f).2.min_bound = max a.min_bound f ∧
      (a.ltF f).2.max_bound = a.max_bound) := by
  refine ⟨⟨?_, ?_, ?_, ?_, ?_, ?_, ?_, ?_⟩, ⟨?_, ?_, ?_, ?_, ?_, ?_, ?_, ?_⟩,
    ?_, ?_, ?_, ?_⟩ <;>
    (try intro h) <;>
    simp only [Assumption.gtF, Assumption.ltF, Assumption.geF, Assumption.leF,
      Assumption.fGt, Assumption.fLt, Assumption.fGe, Assumption.fLe] <;>
    split_ifs <;>
    simp_all [not_lt, le_of_lt, decide_eq_true_eq]

theorem C10_comparison_witness :
    (Assumption.gtF ⟨1/2, 0, 1, "size3win2"⟩ (1/4)).2.min_bound = max 0 (1/4) ∧
    (Assumption.gtF ⟨1/2, 0, 1, "size3win2"⟩ (1/4)).2.max_bound = 1 ∧
    (Assumption.ltF ⟨1/2, 0, 1, "size3win2"⟩ (1/4)).2.min_bound = max 0 (1/4) ∧
    (Assumption.ltF ⟨1/2, 0, 1, "size3win2"⟩ (1/4)).2.max_bound = 1 :=
  ⟨((C10_comparison_semantics_and_frame ⟨1/2, 0, 1, "size3win2"⟩ (1/4)).2.2.1
      (by norm_num)).1,
   ((C10_comparison_semantics_and_frame ⟨1/2, 0, 1, "size3win2"⟩ (1/4)).2.2.1
      (by norm_num)).2,
   ((C10_comparison_semantics_and_frame ⟨1/2, 0, 1, "size3win2"⟩ (1/4)).2.2.2.2.2
      (by norm_num)).1,
   ((C10_comparison_semantics_and_frame ⟨1/2, 0, 1, "size3win2"⟩ (1/4)).2.2.2.2.2
      (by norm_num)).2⟩
